import Mathlib

/-!
Verification of the HOS (hours-of-service) schedule calculator in
`route_api/hos_calculator.py`.

Shallow embedding notes:
* Python floats are modelled as rationals (`ℚ`); every arithmetic operation the
  calculator performs (addition, subtraction, multiplication, division, `min`,
  `max`, comparison) is exact on the traced inputs, so `ℚ` is faithful.
* The external geodesic distance (`geopy.distance.geodesic(...).miles`) is an
  opaque library call; it is modelled as an explicit function parameter
  `gdist : Coord → Coord → ℚ`.  Route points are modelled as pairs, so the
  source's skip-branch for points with fewer than two coordinates can never
  fire and is omitted.  The `try/except` around the distance call is likewise
  unreachable because `gdist` is total.
* The `while remaining_segment_hours > 0` loop is embedded with an explicit
  iteration budget (`runLoop`); `none` means the budget was exhausted.  A
  potential-function argument below shows the budget `legFuel` always
  suffices, so the embedding computes exactly what the Python loop computes.
* `deque(maxlen=8)` is a length-8 list; `daily_duty_hours[0] += x` is
  `bumpHead`; a saturated `append(0.0)` evicts the leftmost entry, i.e.
  `w.drop 1 ++ [0]`.
-/

abbrev Coord : Type := ℚ × ℚ

abbrev DistFn : Type := Coord → Coord → ℚ

/-- Activity types appearing in the schedule dictionaries. -/
inductive AType : Type
  | DRIVING | BREAK | REST | RESTART | PICKUP | DROPOFF | FUEL
deriving DecidableEq, Repr

/-- One schedule entry (the dict appended to `schedule` in the source). -/
structure Event where
  activity_type : AType
  location_index : ℕ
  duration_hours : ℚ
  day : ℕ
  start_duty_hours : ℚ
  end_duty_hours : ℚ
  coord : Coord
  distance_miles : Option ℚ := none
  cycle_hours_remaining : Option ℚ := none
  restart_type : Option String := none
deriving DecidableEq, Repr

/-- One input route segment (`route_segments` element): `distance_miles`,
`duration_hours` and `geometry.coordinates`. -/
structure Leg where
  distance_miles : ℚ
  duration_hours : ℚ
  geometry : List Coord
deriving DecidableEq, Repr

/- Configuration constants from `HOSCalculator.__init__`. -/

def max_daily_driving_hours : ℚ := 11

def max_daily_duty_hours : ℚ := 14

def min_rest_period_hours : ℚ := 10

def required_break_after_hours : ℚ := 8

def required_break_duration_hours : ℚ := 1/2

def max_cycle_hours : ℚ := 70

def cycle_days : ℕ := 8

def fuel_distance_miles : ℚ := 1000

def fuel_duration_hours : ℚ := 1

def pickup_duration_hours : ℚ := 1

def dropoff_duration_hours : ℚ := 1

/-- The scan in `find_location_after_distance`: walk consecutive point pairs
accumulating distance; `none` means the loop fell through. -/
def walkRoute (gdist : DistFn) (target : ℚ) : List Coord → ℚ → Option (Coord × List Coord)
  | p :: q :: rest, traveled =>
    let seg := gdist p q
    if target ≤ traveled + seg then
      let frac := max 0 (min 1 (if 0 < seg then (target - traveled) / seg else 0))
      some ((p.1 + frac * (q.1 - p.1), p.2 + frac * (q.2 - p.2)), q :: rest)
    else
      walkRoute gdist target (q :: rest) (traveled + seg)
  | _, _ => none

/-- `HOSCalculator.find_location_after_distance`. -/
def find_location_after_distance (gdist : DistFn) (route : List Coord) (target : ℚ) :
    Coord × List Coord :=
  match route with
  | [] => ((0, 0), [])
  | [p] => (p, [])
  | p :: q :: rest =>
    match walkRoute gdist target (p :: q :: rest) 0 with
    | some r => r
    | none => ((p :: q :: rest).getLastD (0, 0), [])

/-- Transient simulation state of `calculate_route_schedule` (the local
variables that persist across segments). -/
structure SimSt where
  schedule : List Event
  current_day : ℕ
  current_day_driving : ℚ
  current_day_duty : ℚ
  hours_since_break : ℚ
  cycle_hours_used : ℚ
  current_location : Coord
  distance_since_fuel : ℚ
  pickup_done : Bool
  daily_duty_hours : List ℚ
deriving DecidableEq, Repr

/-- Loop-local state of the `while remaining_segment_hours > 0` loop. -/
structure LegSt where
  sim : SimSt
  remaining_segment_hours : ℚ
  remaining_coords : List Coord
deriving DecidableEq, Repr

/-- `daily_duty_hours[0] += x`. -/
def bumpHead (w : List ℚ) (x : ℚ) : List ℚ :=
  match w with
  | [] => []
  | h :: t => (h + x) :: t

/-- The 30-minute-break check at the top of the while loop. -/
def withBreak (i : ℕ) (s : LegSt) : LegSt :=
  if required_break_after_hours ≤ s.sim.hours_since_break then
    { s with sim := { s.sim with
        schedule := s.sim.schedule ++ [{
          activity_type := .BREAK
          location_index := i
          duration_hours := required_break_duration_hours
          day := s.sim.current_day
          start_duty_hours := s.sim.current_day_duty
          end_duty_hours := s.sim.current_day_duty + required_break_duration_hours
          coord := s.sim.current_location }]
        current_day_duty := s.sim.current_day_duty + required_break_duration_hours
        cycle_hours_used := s.sim.cycle_hours_used + required_break_duration_hours
        daily_duty_hours := bumpHead s.sim.daily_duty_hours required_break_duration_hours
        hours_since_break := 0 } }
  else s

/-- The 34-hour-restart branch. -/
def doRestart (i : ℕ) (s : LegSt) : LegSt :=
  { s with sim := { s.sim with
      schedule := s.sim.schedule ++ [{
        activity_type := .RESTART
        location_index := i
        duration_hours := 34
        day := s.sim.current_day
        start_duty_hours := s.sim.current_day_duty
        end_duty_hours := 0
        coord := s.sim.current_location
        restart_type := some "34-hour" }]
      current_day := s.sim.current_day + 2
      current_day_driving := 0
      current_day_duty := 0
      hours_since_break := 0
      daily_duty_hours := List.replicate cycle_days 0
      cycle_hours_used := 0 } }

/-- The regular 10-hour-rest branch. -/
def doRest (i : ℕ) (s : LegSt) : LegSt :=
  { s with sim := { s.sim with
      schedule := s.sim.schedule ++ [{
        activity_type := .REST
        location_index := i
        duration_hours := min_rest_period_hours
        day := s.sim.current_day
        start_duty_hours := s.sim.current_day_duty
        end_duty_hours := 0
        coord := s.sim.current_location }]
      current_day := s.sim.current_day + 1
      current_day_driving := 0
      current_day_duty := 0
      hours_since_break := 0
      daily_duty_hours := s.sim.daily_duty_hours.drop 1 ++ [0] } }

/-- The guarded projector call inside the driving branch
(`if remaining_coords and len(remaining_coords) > 1`). -/
def projectStep (gdist : DistFn) (dist : ℚ) (loc : Coord) (rc : List Coord) :
    Coord × List Coord :=
  if 1 < rc.length then
    let r := find_location_after_distance gdist rc dist
    (r.1, if r.2 = [] then rc else r.2)
  else (loc, rc)

/-- The fueling block (the source's `try` path; the `except` path performs the
same counter updates and is unreachable in this total model). -/
def doFuel (gdist : DistFn) (i : ℕ) (s : LegSt) : LegSt :=
  let fuel_dist := min s.sim.distance_since_fuel fuel_distance_miles
  let r := find_location_after_distance gdist s.remaining_coords fuel_dist
  { sim := { s.sim with
      schedule := s.sim.schedule ++ [{
        activity_type := .FUEL
        location_index := i
        duration_hours := fuel_duration_hours
        coord := r.1
        day := s.sim.current_day
        start_duty_hours := s.sim.current_day_duty
        end_duty_hours := s.sim.current_day_duty + fuel_duration_hours }]
      current_location := r.1
      current_day_duty := s.sim.current_day_duty + fuel_duration_hours
      hours_since_break := s.sim.hours_since_break + fuel_duration_hours
      cycle_hours_used := s.sim.cycle_hours_used + fuel_duration_hours
      daily_duty_hours := bumpHead s.sim.daily_duty_hours fuel_duration_hours
      distance_since_fuel := 0 }
    remaining_segment_hours := s.remaining_segment_hours
    remaining_coords := if r.2 = [] then s.remaining_coords else r.2 }

/-- The driving branch: cover `speed * avail` miles, advance counters, then
run the fuel check. -/
def doDrive (gdist : DistFn) (i : ℕ) (speed total avail : ℚ) (s : LegSt) : LegSt :=
  let distance_covered := speed * avail
  let pr := projectStep gdist distance_covered s.sim.current_location s.remaining_coords
  let sim1 : SimSt := { s.sim with
    schedule := s.sim.schedule ++ [{
      activity_type := .DRIVING
      location_index := i
      duration_hours := avail
      distance_miles := some distance_covered
      day := s.sim.current_day
      start_duty_hours := s.sim.current_day_duty
      end_duty_hours := s.sim.current_day_duty + avail
      coord := pr.1
      cycle_hours_remaining := some (max_cycle_hours - (total + avail)) }]
    current_location := pr.1
    current_day_driving := s.sim.current_day_driving + avail
    current_day_duty := s.sim.current_day_duty + avail
    hours_since_break := s.sim.hours_since_break + avail
    cycle_hours_used := s.sim.cycle_hours_used + avail
    daily_duty_hours := bumpHead s.sim.daily_duty_hours avail
    distance_since_fuel := s.sim.distance_since_fuel + distance_covered }
  let s1 : LegSt := { sim := sim1
                      remaining_segment_hours := s.remaining_segment_hours - avail
                      remaining_coords := pr.2 }
  if fuel_distance_miles ≤ sim1.distance_since_fuel ∧ s1.remaining_coords ≠ [] then
    doFuel gdist i s1
  else s1

/-- One iteration of the `while remaining_segment_hours > 0` body. -/
def legStep (gdist : DistFn) (i : ℕ) (speed : ℚ) (s : LegSt) : LegSt :=
  let t := withBreak i s
  let total := t.sim.daily_duty_hours.sum
  let cycRem := max 0 (max_cycle_hours - total)
  let avail := min (min (max_daily_driving_hours - t.sim.current_day_driving)
                        (max_daily_duty_hours - t.sim.current_day_duty))
                   (min cycRem t.remaining_segment_hours)
  if avail ≤ 0 then
    if cycRem ≤ 0 then doRestart i t else doRest i t
  else
    doDrive gdist i speed total avail t

/-- The while loop, with an explicit iteration budget. -/
def runLoop (gdist : DistFn) (i : ℕ) (speed : ℚ) : ℕ → LegSt → Option LegSt
  | 0, s => if 0 < s.remaining_segment_hours then none else some s
  | n + 1, s =>
    if 0 < s.remaining_segment_hours then
      runLoop gdist i speed n (legStep gdist i speed s)
    else some s

/-- Iteration budget for one segment; proven sufficient below. -/
def legFuel (dur : ℚ) : ℕ := 5 * ⌈dur / max_daily_driving_hours⌉₊ + 5

/-- The pickup block at the top of the per-segment loop
(`if i == pickup_location_index and not pickup_done`). -/
def pickupStep (pickup_location_index i : ℕ) (sim1 : SimSt) : SimSt :=
  if i = pickup_location_index ∧ sim1.pickup_done = false then
    { sim1 with
      schedule := sim1.schedule ++ [{
        activity_type := .PICKUP
        location_index := i
        duration_hours := pickup_duration_hours
        day := sim1.current_day
        start_duty_hours := sim1.current_day_duty
        end_duty_hours := sim1.current_day_duty + pickup_duration_hours
        coord := sim1.current_location }]
      current_day_duty := sim1.current_day_duty + pickup_duration_hours
      hours_since_break := sim1.hours_since_break + pickup_duration_hours
      cycle_hours_used := sim1.cycle_hours_used + pickup_duration_hours
      daily_duty_hours := bumpHead sim1.daily_duty_hours pickup_duration_hours
      pickup_done := true }
  else sim1

/-- Per-segment processing: speed, geometry default, pickup, then the loop. -/
def processLeg (gdist : DistFn) (pickup_location_index i : ℕ) (leg : Leg) (sim0 : SimSt) :
    Option SimSt :=
  let speed := if 0 < leg.duration_hours then leg.distance_miles / leg.duration_hours else 55
  let coords := if leg.geometry.length < 2 then [((0:ℚ), (0:ℚ)), ((0:ℚ), (0:ℚ))] else leg.geometry
  let sim1 : SimSt := { sim0 with current_location := coords.headI }
  (runLoop gdist i speed (legFuel leg.duration_hours)
      { sim := pickupStep pickup_location_index i sim1
        remaining_segment_hours := leg.duration_hours
        remaining_coords := coords }).map (·.sim)

/-- Fold of `processLeg` over the enumerated segments. -/
def runLegs (gdist : DistFn) (pickup_location_index : ℕ) :
    ℕ → List Leg → SimSt → Option SimSt
  | _, [], sim => some sim
  | i, leg :: rest, sim =>
    (processLeg gdist pickup_location_index i leg sim).bind
      (runLegs gdist pickup_location_index (i + 1) rest)

/-- Initial simulation state of `calculate_route_schedule`. -/
def initSim (initial_hours_used : ℚ) : SimSt := {
  schedule := []
  current_day := 1
  current_day_driving := 0
  current_day_duty := 0
  hours_since_break := 0
  cycle_hours_used := initial_hours_used
  current_location := (0, 0)
  distance_since_fuel := 0
  pickup_done := false
  daily_duty_hours := initial_hours_used :: List.replicate (cycle_days - 1) 0 }

/-- The final DROPOFF entry (`if route_segments:` block). -/
def dropoffEvent (legs : List Leg) (sim : SimSt) : Event :=
  let loc := match legs.getLast? with
    | none => sim.current_location
    | some lg =>
      match lg.geometry.getLast? with
      | none => sim.current_location
      | some p => p
  { activity_type := .DROPOFF
    location_index := legs.length
    duration_hours := dropoff_duration_hours
    day := sim.current_day
    start_duty_hours := sim.current_day_duty
    end_duty_hours := sim.current_day_duty + dropoff_duration_hours
    coord := loc }

/-- `HOSCalculator.calculate_route_schedule`; `none` would mean an exhausted
loop budget (shown impossible below). -/
def calculate_route_schedule (gdist : DistFn) (route_segments : List Leg)
    (initial_hours_used : ℚ) (pickup_location_index : ℕ) : Option (List Event) :=
  (runLegs gdist pickup_location_index 0 route_segments (initSim initial_hours_used)).map
    fun sim =>
      if route_segments.isEmpty then sim.schedule
      else sim.schedule ++ [dropoffEvent route_segments sim]

/-- Entry of one daily ELD log. -/
structure LogEntry where
  status : String
  start_hour : ℚ
  end_hour : ℚ
  activity_type : AType
  location_index : ℕ
  coord : Coord
  cycle_hours_remaining : Option ℚ := none
deriving DecidableEq, Repr

/-- One daily ELD log. -/
structure DailyLog where
  day : ℕ
  date : String
  activities : List LogEntry
deriving DecidableEq, Repr

/-- Duty-status code table in `generate_eld_logs`. -/
def statusOf (a : AType) : String :=
  match a with
  | .DRIVING => "D"
  | .PICKUP | .DROPOFF | .FUEL => "ON"
  | .BREAK => "OFF"
  | .REST | .RESTART => "SB"

/-- One schedule item rendered as a log entry. -/
def logEntryOf (e : Event) : LogEntry := {
  status := statusOf e.activity_type
  start_hour := e.start_duty_hours
  end_hour := if e.activity_type = .REST ∨ e.activity_type = .RESTART then 24
              else e.end_duty_hours
  activity_type := e.activity_type
  location_index := e.location_index
  coord := e.coord
  cycle_hours_remaining := e.cycle_hours_remaining }

/-- `HOSCalculator.generate_eld_logs`: group by day, sort each day's items by
start hour (stably, like Python's `sorted`), render entries. -/
def generate_eld_logs (schedule : List Event) : List DailyLog :=
  let days := ((schedule.map (·.day)).eraseDups).mergeSort (fun a b => decide (a ≤ b))
  days.map fun d => {
    day := d
    date := "Day " ++ toString d
    activities := ((schedule.filter (·.day == d)).mergeSort
        (fun a b => decide (a.start_duty_hours ≤ b.start_duty_hours))).map logEntryOf }

/- Helper observations used in the claim statements. -/

/-- Whether an activity counts toward the day's duty-hour total. -/
def dutyCounted (a : AType) : Bool :=
  match a with
  | .DRIVING | .BREAK | .PICKUP | .DROPOFF | .FUEL => true
  | .REST | .RESTART => false

/-- Sum of duty-counted durations on a given day. -/
def dutySumOnDay (d : ℕ) (l : List Event) : ℚ :=
  ((l.filter fun e => e.day == d && dutyCounted e.activity_type).map (·.duration_hours)).sum

/-- Boolean equality test on activity types (kept as a pattern match so that
it evaluates by plain reduction). -/
def atypeEq : AType → AType → Bool
  | .DRIVING, .DRIVING | .BREAK, .BREAK | .REST, .REST | .RESTART, .RESTART
  | .PICKUP, .PICKUP | .DROPOFF, .DROPOFF | .FUEL, .FUEL => true
  | _, _ => false

/-- Total distance over DRIVING events. -/
def drivingDistSum (l : List Event) : ℚ :=
  ((l.filter fun e => atypeEq e.activity_type .DRIVING).map fun e => e.distance_miles.getD 0).sum

/-- Number of events of a given activity type. -/
def countType (a : AType) (l : List Event) : ℕ :=
  (l.filter fun e => atypeEq e.activity_type a).length

/-- Observable signature of an event: type, leg index, day, start/end duty
hours, duration, distance. -/
def sigOf (e : Event) : AType × ℕ × ℕ × ℚ × ℚ × ℚ × Option ℚ :=
  (e.activity_type, e.location_index, e.day, e.start_duty_hours, e.end_duty_hours,
   e.duration_hours, e.distance_miles)

/- ## Projector lemmas (C8) -/

/-- Consecutive-pair distances of a polyline. -/
def segList (gdist : DistFn) : List Coord → List ℚ
  | p :: q :: rest => gdist p q :: segList gdist (q :: rest)
  | _ => []

/-- The clamped interpolation ratio the source computes at bracket index `i`. -/
def bracketFrac (gdist : DistFn) (target : ℚ) (l : List Coord) (traveled : ℚ) (i : ℕ) : ℚ :=
  let seg := (segList gdist l).getD i 0
  max 0 (min 1
    (if 0 < seg then (target - (traveled + ((segList gdist l).take i).sum)) / seg else 0))

/-- A concrete total distance function for witnesses (coordinate differences;
on the witness polylines below all differences are nonnegative). -/
def demoDist : DistFn := fun p q => (q.1 - p.1) + (q.2 - p.2)

/- ## Concrete trace evaluations (shared by several claims) -/

/-- Distance function used in concrete runs (all geometry is the
degenerate placeholder, so distances play no role). -/
def g0 : DistFn := fun _ _ => 0

def legA : Leg := { distance_miles := 100, duration_hours := 2, geometry := [] }

def legB : Leg := { distance_miles := 600, duration_hours := 11, geometry := [] }

def legE0 : Leg := { distance_miles := 1000000, duration_hours := 8, geometry := [] }

def legE1 : Leg := { distance_miles := 750000, duration_hours := 6, geometry := [] }

def legZ : Leg := { distance_miles := 100, duration_hours := 0, geometry := [] }

def lsA0 : LegSt := { sim := { schedule := [{ activity_type := AType.PICKUP, location_index := 0, duration_hours := 1, day := 1, start_duty_hours := 0, end_duty_hours := 1, coord := (0, 0), distance_miles := none, cycle_hours_remaining := none, restart_type := none }], current_day := 1, current_day_driving := 0, current_day_duty := 1, hours_since_break := 1, cycle_hours_used := 1, current_location := (0, 0), distance_since_fuel := 0, pickup_done := true, daily_duty_hours := [1, 0, 0, 0, 0, 0, 0, 0] }, remaining_segment_hours := 2, remaining_coords := [(0, 0), (0, 0)] }

def lsA1 : LegSt := { sim := { schedule := [{ activity_type := AType.PICKUP, location_index := 0, duration_hours := 1, day := 1, start_duty_hours := 0, end_duty_hours := 1, coord := (0, 0), distance_miles := none, cycle_hours_remaining := none, restart_type := none }, { activity_type := AType.DRIVING, location_index := 0, duration_hours := 2, day := 1, start_duty_hours := 1, end_duty_hours := 3, coord := (0, 0), distance_miles := some 100, cycle_hours_remaining := some 67, restart_type := none }], current_day := 1, current_day_driving := 2, current_day_duty := 3, hours_since_break := 3, cycle_hours_used := 3, current_location := (0, 0), distance_since_fuel := 100, pickup_done := true, daily_duty_hours := [3, 0, 0, 0, 0, 0, 0, 0] }, remaining_segment_hours := 0, remaining_coords := [(0, 0), (0, 0)] }

def lsB0 : LegSt := { sim := { schedule := [{ activity_type := AType.PICKUP, location_index := 0, duration_hours := 1, day := 1, start_duty_hours := 0, end_duty_hours := 1, coord := (0, 0), distance_miles := none, cycle_hours_remaining := none, restart_type := none }], current_day := 1, current_day_driving := 0, current_day_duty := 1, hours_since_break := 1, cycle_hours_used := 1, current_location := (0, 0), distance_since_fuel := 0, pickup_done := true, daily_duty_hours := [1, 0, 0, 0, 0, 0, 0, 0] }, remaining_segment_hours := 11, remaining_coords := [(0, 0), (0, 0)] }

def lsB1 : LegSt := { sim := { schedule := [{ activity_type := AType.PICKUP, location_index := 0, duration_hours := 1, day := 1, start_duty_hours := 0, end_duty_hours := 1, coord := (0, 0), distance_miles := none, cycle_hours_remaining := none, restart_type := none }, { activity_type := AType.DRIVING, location_index := 0, duration_hours := 11, day := 1, start_duty_hours := 1, end_duty_hours := 12, coord := (0, 0), distance_miles := some 600, cycle_hours_remaining := some 58, restart_type := none }], current_day := 1, current_day_driving := 11, current_day_duty := 12, hours_since_break := 12, cycle_hours_used := 12, current_location := (0, 0), distance_since_fuel := 600, pickup_done := true, daily_duty_hours := [12, 0, 0, 0, 0, 0, 0, 0] }, remaining_segment_hours := 0, remaining_coords := [(0, 0), (0, 0)] }

def lsB3 : LegSt := { sim := { schedule := [{ activity_type := AType.PICKUP, location_index := 0, duration_hours := 1, day := 1, start_duty_hours := 0, end_duty_hours := 1, coord := (0, 0), distance_miles := none, cycle_hours_remaining := none, restart_type := none }, { activity_type := AType.DRIVING, location_index := 0, duration_hours := 11, day := 1, start_duty_hours := 1, end_duty_hours := 12, coord := (0, 0), distance_miles := some 600, cycle_hours_remaining := some 58, restart_type := none }, { activity_type := AType.BREAK, location_index := 1, duration_hours := (1 : Rat)/2, day := 1, start_duty_hours := 12, end_duty_hours := (25 : Rat)/2, coord := (0, 0), distance_miles := none, cycle_hours_remaining := none, restart_type := none }, { activity_type := AType.REST, location_index := 1, duration_hours := 10, day := 1, start_duty_hours := (25 : Rat)/2, end_duty_hours := 0, coord := (0, 0), distance_miles := none, cycle_hours_remaining := none, restart_type := none }], current_day := 2, current_day_driving := 0, current_day_duty := 0, hours_since_break := 0, cycle_hours_used := (25 : Rat)/2, current_location := (0, 0), distance_since_fuel := 600, pickup_done := true, daily_duty_hours := [0, 0, 0, 0, 0, 0, 0, 0] }, remaining_segment_hours := 11, remaining_coords := [(0, 0), (0, 0)] }

def lsB4 : LegSt := { sim := { schedule := [{ activity_type := AType.PICKUP, location_index := 0, duration_hours := 1, day := 1, start_duty_hours := 0, end_duty_hours := 1, coord := (0, 0), distance_miles := none, cycle_hours_remaining := none, restart_type := none }, { activity_type := AType.DRIVING, location_index := 0, duration_hours := 11, day := 1, start_duty_hours := 1, end_duty_hours := 12, coord := (0, 0), distance_miles := some 600, cycle_hours_remaining := some 58, restart_type := none }, { activity_type := AType.BREAK, location_index := 1, duration_hours := (1 : Rat)/2, day := 1, start_duty_hours := 12, end_duty_hours := (25 : Rat)/2, coord := (0, 0), distance_miles := none, cycle_hours_remaining := none, restart_type := none }, { activity_type := AType.REST, location_index := 1, duration_hours := 10, day := 1, start_duty_hours := (25 : Rat)/2, end_duty_hours := 0, coord := (0, 0), distance_miles := none, cycle_hours_remaining := none, restart_type := none }, { activity_type := AType.DRIVING, location_index := 1, duration_hours := 11, day := 2, start_duty_hours := 0, end_duty_hours := 11, coord := (0, 0), distance_miles := some 600, cycle_hours_remaining := some 59, restart_type := none }, { activity_type := AType.FUEL, location_index := 1, duration_hours := 1, day := 2, start_duty_hours := 11, end_duty_hours := 12, coord := (0, 0), distance_miles := none, cycle_hours_remaining := none, restart_type := none }], current_day := 2, current_day_driving := 11, current_day_duty := 12, hours_since_break := 12, cycle_hours_used := (49 : Rat)/2, current_location := (0, 0), distance_since_fuel := 0, pickup_done := true, daily_duty_hours := [12, 0, 0, 0, 0, 0, 0, 0] }, remaining_segment_hours := 0, remaining_coords := [(0, 0), (0, 0)] }

def lsD0 : LegSt := { sim := { schedule := [{ activity_type := AType.PICKUP, location_index := 0, duration_hours := 1, day := 1, start_duty_hours := 0, end_duty_hours := 1, coord := (0, 0), distance_miles := none, cycle_hours_remaining := none, restart_type := none }], current_day := 1, current_day_driving := 0, current_day_duty := 1, hours_since_break := 1, cycle_hours_used := 71, current_location := (0, 0), distance_since_fuel := 0, pickup_done := true, daily_duty_hours := [71, 0, 0, 0, 0, 0, 0, 0] }, remaining_segment_hours := 2, remaining_coords := [(0, 0), (0, 0)] }

def lsD1 : LegSt := { sim := { schedule := [{ activity_type := AType.PICKUP, location_index := 0, duration_hours := 1, day := 1, start_duty_hours := 0, end_duty_hours := 1, coord := (0, 0), distance_miles := none, cycle_hours_remaining := none, restart_type := none }, { activity_type := AType.RESTART, location_index := 0, duration_hours := 34, day := 1, start_duty_hours := 1, end_duty_hours := 0, coord := (0, 0), distance_miles := none, cycle_hours_remaining := none, restart_type := some "34-hour" }], current_day := 3, current_day_driving := 0, current_day_duty := 0, hours_since_break := 0, cycle_hours_used := 0, current_location := (0, 0), distance_since_fuel := 0, pickup_done := true, daily_duty_hours := [0, 0, 0, 0, 0, 0, 0, 0] }, remaining_segment_hours := 2, remaining_coords := [(0, 0), (0, 0)] }

def lsD2 : LegSt := { sim := { schedule := [{ activity_type := AType.PICKUP, location_index := 0, duration_hours := 1, day := 1, start_duty_hours := 0, end_duty_hours := 1, coord := (0, 0), distance_miles := none, cycle_hours_remaining := none, restart_type := none }, { activity_type := AType.RESTART, location_index := 0, duration_hours := 34, day := 1, start_duty_hours := 1, end_duty_hours := 0, coord := (0, 0), distance_miles := none, cycle_hours_remaining := none, restart_type := some "34-hour" }, { activity_type := AType.DRIVING, location_index := 0, duration_hours := 2, day := 3, start_duty_hours := 0, end_duty_hours := 2, coord := (0, 0), distance_miles := some 100, cycle_hours_remaining := some 68, restart_type := none }], current_day := 3, current_day_driving := 2, current_day_duty := 2, hours_since_break := 2, cycle_hours_used := 2, current_location := (0, 0), distance_since_fuel := 100, pickup_done := true, daily_duty_hours := [2, 0, 0, 0, 0, 0, 0, 0] }, remaining_segment_hours := 0, remaining_coords := [(0, 0), (0, 0)] }

def lsE0 : LegSt := { sim := { schedule := [{ activity_type := AType.PICKUP, location_index := 0, duration_hours := 1, day := 1, start_duty_hours := 0, end_duty_hours := 1, coord := (0, 0), distance_miles := none, cycle_hours_remaining := none, restart_type := none }], current_day := 1, current_day_driving := 0, current_day_duty := 1, hours_since_break := 1, cycle_hours_used := 1, current_location := (0, 0), distance_since_fuel := 0, pickup_done := true, daily_duty_hours := [1, 0, 0, 0, 0, 0, 0, 0] }, remaining_segment_hours := 8, remaining_coords := [(0, 0), (0, 0)] }

def lsE1 : LegSt := { sim := { schedule := [{ activity_type := AType.PICKUP, location_index := 0, duration_hours := 1, day := 1, start_duty_hours := 0, end_duty_hours := 1, coord := (0, 0), distance_miles := none, cycle_hours_remaining := none, restart_type := none }, { activity_type := AType.DRIVING, location_index := 0, duration_hours := 8, day := 1, start_duty_hours := 1, end_duty_hours := 9, coord := (0, 0), distance_miles := some 1000000, cycle_hours_remaining := some 61, restart_type := none }, { activity_type := AType.FUEL, location_index := 0, duration_hours := 1, day := 1, start_duty_hours := 9, end_duty_hours := 10, coord := (0, 0), distance_miles := none, cycle_hours_remaining := none, restart_type := none }], current_day := 1, current_day_driving := 8, current_day_duty := 10, hours_since_break := 10, cycle_hours_used := 10, current_location := (0, 0), distance_since_fuel := 0, pickup_done := true, daily_duty_hours := [10, 0, 0, 0, 0, 0, 0, 0] }, remaining_segment_hours := 0, remaining_coords := [(0, 0), (0, 0)] }

def lsE3 : LegSt := { sim := { schedule := [{ activity_type := AType.PICKUP, location_index := 0, duration_hours := 1, day := 1, start_duty_hours := 0, end_duty_hours := 1, coord := (0, 0), distance_miles := none, cycle_hours_remaining := none, restart_type := none }, { activity_type := AType.DRIVING, location_index := 0, duration_hours := 8, day := 1, start_duty_hours := 1, end_duty_hours := 9, coord := (0, 0), distance_miles := some 1000000, cycle_hours_remaining := some 61, restart_type := none }, { activity_type := AType.FUEL, location_index := 0, duration_hours := 1, day := 1, start_duty_hours := 9, end_duty_hours := 10, coord := (0, 0), distance_miles := none, cycle_hours_remaining := none, restart_type := none }, { activity_type := AType.BREAK, location_index := 1, duration_hours := (1 : Rat)/2, day := 1, start_duty_hours := 10, end_duty_hours := (21 : Rat)/2, coord := (0, 0), distance_miles := none, cycle_hours_remaining := none, restart_type := none }, { activity_type := AType.DRIVING, location_index := 1, duration_hours := 3, day := 1, start_duty_hours := (21 : Rat)/2, end_duty_hours := (27 : Rat)/2, coord := (0, 0), distance_miles := some 375000, cycle_hours_remaining := some ((113 : Rat)/2), restart_type := none }, { activity_type := AType.FUEL, location_index := 1, duration_hours := 1, day := 1, start_duty_hours := (27 : Rat)/2, end_duty_hours := (29 : Rat)/2, coord := (0, 0), distance_miles := none, cycle_hours_remaining := none, restart_type := none }], current_day := 1, current_day_driving := 11, current_day_duty := (29 : Rat)/2, hours_since_break := 4, cycle_hours_used := (29 : Rat)/2, current_location := (0, 0), distance_since_fuel := 0, pickup_done := true, daily_duty_hours := [(29 : Rat)/2, 0, 0, 0, 0, 0, 0, 0] }, remaining_segment_hours := 3, remaining_coords := [(0, 0), (0, 0)] }

def lsE4 : LegSt := { sim := { schedule := [{ activity_type := AType.PICKUP, location_index := 0, duration_hours := 1, day := 1, start_duty_hours := 0, end_duty_hours := 1, coord := (0, 0), distance_miles := none, cycle_hours_remaining := none, restart_type := none }, { activity_type := AType.DRIVING, location_index := 0, duration_hours := 8, day := 1, start_duty_hours := 1, end_duty_hours := 9, coord := (0, 0), distance_miles := some 1000000, cycle_hours_remaining := some 61, restart_type := none }, { activity_type := AType.FUEL, location_index := 0, duration_hours := 1, day := 1, start_duty_hours := 9, end_duty_hours := 10, coord := (0, 0), distance_miles := none, cycle_hours_remaining := none, restart_type := none }, { activity_type := AType.BREAK, location_index := 1, duration_hours := (1 : Rat)/2, day := 1, start_duty_hours := 10, end_duty_hours := (21 : Rat)/2, coord := (0, 0), distance_miles := none, cycle_hours_remaining := none, restart_type := none }, { activity_type := AType.DRIVING, location_index := 1, duration_hours := 3, day := 1, start_duty_hours := (21 : Rat)/2, end_duty_hours := (27 : Rat)/2, coord := (0, 0), distance_miles := some 375000, cycle_hours_remaining := some ((113 : Rat)/2), restart_type := none }, { activity_type := AType.FUEL, location_index := 1, duration_hours := 1, day := 1, start_duty_hours := (27 : Rat)/2, end_duty_hours := (29 : Rat)/2, coord := (0, 0), distance_miles := none, cycle_hours_remaining := none, restart_type := none }, { activity_type := AType.REST, location_index := 1, duration_hours := 10, day := 1, start_duty_hours := (29 : Rat)/2, end_duty_hours := 0, coord := (0, 0), distance_miles := none, cycle_hours_remaining := none, restart_type := none }], current_day := 2, current_day_driving := 0, current_day_duty := 0, hours_since_break := 0, cycle_hours_used := (29 : Rat)/2, current_location := (0, 0), distance_since_fuel := 0, pickup_done := true, daily_duty_hours := [0, 0, 0, 0, 0, 0, 0, 0] }, remaining_segment_hours := 3, remaining_coords := [(0, 0), (0, 0)] }

def lsE5 : LegSt := { sim := { schedule := [{ activity_type := AType.PICKUP, location_index := 0, duration_hours := 1, day := 1, start_duty_hours := 0, end_duty_hours := 1, coord := (0, 0), distance_miles := none, cycle_hours_remaining := none, restart_type := none }, { activity_type := AType.DRIVING, location_index := 0, duration_hours := 8, day := 1, start_duty_hours := 1, end_duty_hours := 9, coord := (0, 0), distance_miles := some 1000000, cycle_hours_remaining := some 61, restart_type := none }, { activity_type := AType.FUEL, location_index := 0, duration_hours := 1, day := 1, start_duty_hours := 9, end_duty_hours := 10, coord := (0, 0), distance_miles := none, cycle_hours_remaining := none, restart_type := none }, { activity_type := AType.BREAK, location_index := 1, duration_hours := (1 : Rat)/2, day := 1, start_duty_hours := 10, end_duty_hours := (21 : Rat)/2, coord := (0, 0), distance_miles := none, cycle_hours_remaining := none, restart_type := none }, { activity_type := AType.DRIVING, location_index := 1, duration_hours := 3, day := 1, start_duty_hours := (21 : Rat)/2, end_duty_hours := (27 : Rat)/2, coord := (0, 0), distance_miles := some 375000, cycle_hours_remaining := some ((113 : Rat)/2), restart_type := none }, { activity_type := AType.FUEL, location_index := 1, duration_hours := 1, day := 1, start_duty_hours := (27 : Rat)/2, end_duty_hours := (29 : Rat)/2, coord := (0, 0), distance_miles := none, cycle_hours_remaining := none, restart_type := none }, { activity_type := AType.REST, location_index := 1, duration_hours := 10, day := 1, start_duty_hours := (29 : Rat)/2, end_duty_hours := 0, coord := (0, 0), distance_miles := none, cycle_hours_remaining := none, restart_type := none }, { activity_type := AType.DRIVING, location_index := 1, duration_hours := 3, day := 2, start_duty_hours := 0, end_duty_hours := 3, coord := (0, 0), distance_miles := some 375000, cycle_hours_remaining := some 67, restart_type := none }, { activity_type := AType.FUEL, location_index := 1, duration_hours := 1, day := 2, start_duty_hours := 3, end_duty_hours := 4, coord := (0, 0), distance_miles := none, cycle_hours_remaining := none, restart_type := none }], current_day := 2, current_day_driving := 3, current_day_duty := 4, hours_since_break := 4, cycle_hours_used := (37 : Rat)/2, current_location := (0, 0), distance_since_fuel := 0, pickup_done := true, daily_duty_hours := [4, 0, 0, 0, 0, 0, 0, 0] }, remaining_segment_hours := 0, remaining_coords := [(0, 0), (0, 0)] }

def lsF0 : LegSt := { sim := { schedule := [], current_day := 1, current_day_driving := 0, current_day_duty := 0, hours_since_break := 0, cycle_hours_used := 0, current_location := (0, 0), distance_since_fuel := 0, pickup_done := false, daily_duty_hours := [0, 0, 0, 0, 0, 0, 0, 0] }, remaining_segment_hours := 2, remaining_coords := [(0, 0), (0, 0)] }

def lsF1 : LegSt := { sim := { schedule := [{ activity_type := AType.DRIVING, location_index := 0, duration_hours := 2, day := 1, start_duty_hours := 0, end_duty_hours := 2, coord := (0, 0), distance_miles := some 100, cycle_hours_remaining := some 68, restart_type := none }], current_day := 1, current_day_driving := 2, current_day_duty := 2, hours_since_break := 2, cycle_hours_used := 2, current_location := (0, 0), distance_since_fuel := 100, pickup_done := false, daily_duty_hours := [2, 0, 0, 0, 0, 0, 0, 0] }, remaining_segment_hours := 0, remaining_coords := [(0, 0), (0, 0)] }

def lsB2 : LegSt := { sim := lsB1.sim, remaining_segment_hours := 11, remaining_coords := [(0, 0), (0, 0)] }

def lsE2 : LegSt := { sim := lsE1.sim, remaining_segment_hours := 6, remaining_coords := [(0, 0), (0, 0)] }

def schedA : List Event := [{ activity_type := AType.PICKUP, location_index := 0, duration_hours := 1, day := 1, start_duty_hours := 0, end_duty_hours := 1, coord := (0, 0), distance_miles := none, cycle_hours_remaining := none, restart_type := none }, { activity_type := AType.DRIVING, location_index := 0, duration_hours := 2, day := 1, start_duty_hours := 1, end_duty_hours := 3, coord := (0, 0), distance_miles := some 100, cycle_hours_remaining := some 67, restart_type := none }, { activity_type := AType.DROPOFF, location_index := 1, duration_hours := 1, day := 1, start_duty_hours := 3, end_duty_hours := 4, coord := (0, 0), distance_miles := none, cycle_hours_remaining := none, restart_type := none }]

def schedB : List Event := [{ activity_type := AType.PICKUP, location_index := 0, duration_hours := 1, day := 1, start_duty_hours := 0, end_duty_hours := 1, coord := (0, 0), distance_miles := none, cycle_hours_remaining := none, restart_type := none }, { activity_type := AType.DRIVING, location_index := 0, duration_hours := 11, day := 1, start_duty_hours := 1, end_duty_hours := 12, coord := (0, 0), distance_miles := some 600, cycle_hours_remaining := some 58, restart_type := none }, { activity_type := AType.BREAK, location_index := 1, duration_hours := (1 : Rat)/2, day := 1, start_duty_hours := 12, end_duty_hours := (25 : Rat)/2, coord := (0, 0), distance_miles := none, cycle_hours_remaining := none, restart_type := none }, { activity_type := AType.REST, location_index := 1, duration_hours := 10, day := 1, start_duty_hours := (25 : Rat)/2, end_duty_hours := 0, coord := (0, 0), distance_miles := none, cycle_hours_remaining := none, restart_type := none }, { activity_type := AType.DRIVING, location_index := 1, duration_hours := 11, day := 2, start_duty_hours := 0, end_duty_hours := 11, coord := (0, 0), distance_miles := some 600, cycle_hours_remaining := some 59, restart_type := none }, { activity_type := AType.FUEL, location_index := 1, duration_hours := 1, day := 2, start_duty_hours := 11, end_duty_hours := 12, coord := (0, 0), distance_miles := none, cycle_hours_remaining := none, restart_type := none }, { activity_type := AType.DROPOFF, location_index := 2, duration_hours := 1, day := 2, start_duty_hours := 12, end_duty_hours := 13, coord := (0, 0), distance_miles := none, cycle_hours_remaining := none, restart_type := none }]

def schedD : List Event := [{ activity_type := AType.PICKUP, location_index := 0, duration_hours := 1, day := 1, start_duty_hours := 0, end_duty_hours := 1, coord := (0, 0), distance_miles := none, cycle_hours_remaining := none, restart_type := none }, { activity_type := AType.RESTART, location_index := 0, duration_hours := 34, day := 1, start_duty_hours := 1, end_duty_hours := 0, coord := (0, 0), distance_miles := none, cycle_hours_remaining := none, restart_type := some "34-hour" }, { activity_type := AType.DRIVING, location_index := 0, duration_hours := 2, day := 3, start_duty_hours := 0, end_duty_hours := 2, coord := (0, 0), distance_miles := some 100, cycle_hours_remaining := some 68, restart_type := none }, { activity_type := AType.DROPOFF, location_index := 1, duration_hours := 1, day := 3, start_duty_hours := 2, end_duty_hours := 3, coord := (0, 0), distance_miles := none, cycle_hours_remaining := none, restart_type := none }]

def schedE : List Event := [{ activity_type := AType.PICKUP, location_index := 0, duration_hours := 1, day := 1, start_duty_hours := 0, end_duty_hours := 1, coord := (0, 0), distance_miles := none, cycle_hours_remaining := none, restart_type := none }, { activity_type := AType.DRIVING, location_index := 0, duration_hours := 8, day := 1, start_duty_hours := 1, end_duty_hours := 9, coord := (0, 0), distance_miles := some 1000000, cycle_hours_remaining := some 61, restart_type := none }, { activity_type := AType.FUEL, location_index := 0, duration_hours := 1, day := 1, start_duty_hours := 9, end_duty_hours := 10, coord := (0, 0), distance_miles := none, cycle_hours_remaining := none, restart_type := none }, { activity_type := AType.BREAK, location_index := 1, duration_hours := (1 : Rat)/2, day := 1, start_duty_hours := 10, end_duty_hours := (21 : Rat)/2, coord := (0, 0), distance_miles := none, cycle_hours_remaining := none, restart_type := none }, { activity_type := AType.DRIVING, location_index := 1, duration_hours := 3, day := 1, start_duty_hours := (21 : Rat)/2, end_duty_hours := (27 : Rat)/2, coord := (0, 0), distance_miles := some 375000, cycle_hours_remaining := some ((113 : Rat)/2), restart_type := none }, { activity_type := AType.FUEL, location_index := 1, duration_hours := 1, day := 1, start_duty_hours := (27 : Rat)/2, end_duty_hours := (29 : Rat)/2, coord := (0, 0), distance_miles := none, cycle_hours_remaining := none, restart_type := none }, { activity_type := AType.REST, location_index := 1, duration_hours := 10, day := 1, start_duty_hours := (29 : Rat)/2, end_duty_hours := 0, coord := (0, 0), distance_miles := none, cycle_hours_remaining := none, restart_type := none }, { activity_type := AType.DRIVING, location_index := 1, duration_hours := 3, day := 2, start_duty_hours := 0, end_duty_hours := 3, coord := (0, 0), distance_miles := some 375000, cycle_hours_remaining := some 67, restart_type := none }, { activity_type := AType.FUEL, location_index := 1, duration_hours := 1, day := 2, start_duty_hours := 3, end_duty_hours := 4, coord := (0, 0), distance_miles := none, cycle_hours_remaining := none, restart_type := none }, { activity_type := AType.DROPOFF, location_index := 2, duration_hours := 1, day := 2, start_duty_hours := 4, end_duty_hours := 5, coord := (0, 0), distance_miles := none, cycle_hours_remaining := none, restart_type := none }]

def schedF : List Event := [{ activity_type := AType.DRIVING, location_index := 0, duration_hours := 2, day := 1, start_duty_hours := 0, end_duty_hours := 2, coord := (0, 0), distance_miles := some 100, cycle_hours_remaining := some 68, restart_type := none }, { activity_type := AType.DROPOFF, location_index := 1, duration_hours := 1, day := 1, start_duty_hours := 2, end_duty_hours := 3, coord := (0, 0), distance_miles := none, cycle_hours_remaining := none, restart_type := none }]

def schedZ : List Event := [{ activity_type := AType.PICKUP, location_index := 0, duration_hours := 1, day := 1, start_duty_hours := 0, end_duty_hours := 1, coord := (0, 0), distance_miles := none, cycle_hours_remaining := none, restart_type := none }, { activity_type := AType.DROPOFF, location_index := 1, duration_hours := 1, day := 1, start_duty_hours := 1, end_duty_hours := 2, coord := (0, 0), distance_miles := none, cycle_hours_remaining := none, restart_type := none }]

/- Per-segment and whole-run evaluations on the trace inputs. -/

def lsZ0 : LegSt := { sim := lsA0.sim, remaining_segment_hours := 0, remaining_coords := [(0, 0), (0, 0)] }

/- ## Termination of the while loop (C9)

The loop state is abstracted to the numeric core that drives the control
flow; one iteration maps the core to one of four outcomes, and a potential
function over the core strictly decreases, which bounds the iteration count
by `legFuel`. -/

structure Core where
  rem : ℚ
  dd : ℚ
  duty : ℚ
  hsb : ℚ
  window : List ℚ
deriving DecidableEq, Repr

def coreOf (s : LegSt) : Core :=
  { rem := s.remaining_segment_hours
    dd := s.sim.current_day_driving
    duty := s.sim.current_day_duty
    hsb := s.sim.hours_since_break
    window := s.sim.daily_duty_hours }

def totalC (c : Core) : ℚ := c.window.sum

def cycRemC (c : Core) : ℚ := max 0 (max_cycle_hours - totalC c)

def availC (c : Core) : ℚ :=
  min (min (max_daily_driving_hours - c.dd) (max_daily_duty_hours - c.duty))
      (min (cycRemC c) c.rem)

def breakC (c : Core) : Core :=
  if required_break_after_hours ≤ c.hsb then
    { c with duty := c.duty + required_break_duration_hours
             window := bumpHead c.window required_break_duration_hours
             hsb := 0 }
  else c

def driveC (a : ℚ) (c : Core) : Core :=
  { rem := c.rem - a
    dd := c.dd + a
    duty := c.duty + a
    hsb := c.hsb + a
    window := bumpHead c.window a }

def fuelC (c : Core) : Core :=
  { c with duty := c.duty + fuel_duration_hours
           hsb := c.hsb + fuel_duration_hours
           window := bumpHead c.window fuel_duration_hours }

def restC (c : Core) : Core :=
  { rem := c.rem, dd := 0, duty := 0, hsb := 0, window := c.window.drop 1 ++ [0] }

def restartC (c : Core) : Core :=
  { rem := c.rem, dd := 0, duty := 0, hsb := 0, window := List.replicate cycle_days 0 }

def phaseC (c : Core) : ℕ :=
  let b := breakC c
  if 0 < availC b then
    if min max_daily_driving_hours b.rem ≤ availC b then 0
    else if max_cycle_hours ≤ totalC b + availC b then 2
    else 4
  else if cycRemC b ≤ 0 then 1 else 3

def measureC (c : Core) : ℕ :=
  5 * ⌈c.rem / max_daily_driving_hours⌉₊ + phaseC c

/-- The DRIVING entry appended by the driving branch. -/
def drivingEventOf (gdist : DistFn) (i : ℕ) (speed total avail : ℚ) (t : LegSt) : Event :=
  { activity_type := .DRIVING
    location_index := i
    duration_hours := avail
    distance_miles := some (speed * avail)
    day := t.sim.current_day
    start_duty_hours := t.sim.current_day_duty
    end_duty_hours := t.sim.current_day_duty + avail
    coord := (projectStep gdist (speed * avail) t.sim.current_location t.remaining_coords).1
    cycle_hours_remaining := some (max_cycle_hours - (total + avail)) }

/-- Properties of every event appended by a loop iteration. -/
def stepEventOK (e : Event) : Prop :=
  e.activity_type ≠ .PICKUP ∧ e.activity_type ≠ .DROPOFF ∧
  (e.activity_type = .DRIVING → e.end_duty_hours ≤ max_daily_duty_hours ∧
    ∃ cr, e.cycle_hours_remaining = some cr ∧ 0 ≤ cr ∧ 0 < e.duration_hours)

lemma segList_sum_nonneg (gdist : DistFn) (h : ∀ p q, 0 ≤ gdist p q) :
    ∀ l : List Coord, 0 ≤ (segList gdist l).sum := by
  intro l
  induction l with
  | nil => simp [segList]
  | cons p t ih =>
    cases t with
    | nil => simp [segList]
    | cons q rest =>
      simp only [segList, List.sum_cons]
      exact add_nonneg (h p q) ih

lemma walkRoute_eq_none (gdist : DistFn) (target : ℚ) (h : ∀ p q, 0 ≤ gdist p q) :
    ∀ (l : List Coord) (traveled : ℚ),
      traveled + (segList gdist l).sum < target →
      walkRoute gdist target l traveled = none := by
  intro l
  induction l with
  | nil => intro traveled _; rfl
  | cons p t ih =>
    cases t with
    | nil => intro traveled _; rfl
    | cons q rest =>
      intro traveled hlt
      simp only [segList, List.sum_cons] at hlt
      have hrest : 0 ≤ (segList gdist (q :: rest)).sum := segList_sum_nonneg gdist h _
      have h1 : traveled + gdist p q < target := by linarith
      simp only [walkRoute, if_neg (not_le.mpr h1)]
      exact ih (traveled + gdist p q) (by linarith)

lemma segList_cons_cons (gdist : DistFn) (p q : Coord) (rest : List Coord) :
    segList gdist (p :: q :: rest) = gdist p q :: segList gdist (q :: rest) := rfl

lemma walkRoute_bracket (gdist : DistFn) (target : ℚ) :
    ∀ (i : ℕ) (l : List Coord) (traveled : ℚ),
      i + 1 < l.length →
      (∀ j, j < i →
        traveled + ((segList gdist l).take j).sum + (segList gdist l).getD j 0 < target) →
      target ≤ traveled + ((segList gdist l).take i).sum + (segList gdist l).getD i 0 →
      walkRoute gdist target l traveled = some
        (((l.getD i (0, 0)).1
            + bracketFrac gdist target l traveled i * ((l.getD (i + 1) (0, 0)).1 - (l.getD i (0, 0)).1),
          (l.getD i (0, 0)).2
            + bracketFrac gdist target l traveled i * ((l.getD (i + 1) (0, 0)).2 - (l.getD i (0, 0)).2)),
         l.drop (i + 1)) := by
  intro i
  induction i with
  | zero =>
    intro l traveled hlen hj hi
    match l, hlen with
    | p :: q :: rest, _ =>
      simp only [segList_cons_cons, List.take_zero, List.sum_nil, List.getD_cons_zero,
        add_zero, zero_add] at hi
      simp only [walkRoute, if_pos hi, bracketFrac, segList_cons_cons, List.take_zero,
        List.sum_nil, List.getD_cons_zero, List.getD_cons_succ, List.drop_succ_cons,
        List.drop_zero, add_zero, zero_add]
  | succ i ih =>
    intro l traveled hlen hj hi
    obtain ⟨p, q, rest, rfl⟩ : ∃ p q rest, l = p :: q :: rest := by
      match l, hlen with
      | p :: q :: rest, _ => exact ⟨p, q, rest, rfl⟩
    · have h0 : traveled + gdist p q < target := by
        have := hj 0 (Nat.succ_pos i)
        simpa [segList_cons_cons] using this
      have hlen2 : i + 1 < (q :: rest).length := by
        simp only [List.length_cons] at hlen ⊢
        omega
      have hj2 : ∀ j, j < i →
          (traveled + gdist p q) + ((segList gdist (q :: rest)).take j).sum
            + (segList gdist (q :: rest)).getD j 0 < target := by
        intro j hji
        have := hj (j + 1) (Nat.succ_lt_succ hji)
        simp only [segList_cons_cons, List.take_succ_cons, List.sum_cons,
          List.getD_cons_succ] at this
        linarith
      have hi2 : target ≤ (traveled + gdist p q) + ((segList gdist (q :: rest)).take i).sum
          + (segList gdist (q :: rest)).getD i 0 := by
        simp only [segList_cons_cons, List.take_succ_cons, List.sum_cons,
          List.getD_cons_succ] at hi
        linarith
      have hrec := ih (q :: rest) (traveled + gdist p q) hlen2 hj2 hi2
      have hfrac : bracketFrac gdist target (q :: rest) (traveled + gdist p q) i
          = bracketFrac gdist target (p :: q :: rest) traveled (i + 1) := by
        simp only [bracketFrac, segList_cons_cons, List.take_succ_cons, List.sum_cons,
          List.getD_cons_succ, add_assoc]
      simp only [walkRoute, if_neg (not_le.mpr h0)]
      rw [hrec, hfrac]
      simp only [List.getD_cons_succ, List.drop_succ_cons]

/-- C8: projector contract of `find_location_after_distance`: empty polyline
gives `(0,0)` with empty remainder; a single point gives that point with empty
remainder; a target beyond the total length gives the last point with empty
remainder; otherwise the point interpolated linearly in raw lon/lat at the
first bracketing segment (clamped ratio, 0 for zero-length segments) together
with the suffix from the next vertex, the interpolated point not spliced in. -/
theorem projector_contract (gdist : DistFn) (target : ℚ) :
    (find_location_after_distance gdist [] target = ((0, 0), [])) ∧
    (∀ p, find_location_after_distance gdist [p] target = (p, [])) ∧
    (∀ route, 2 ≤ route.length → (∀ p q, 0 ≤ gdist p q) →
      (segList gdist route).sum < target →
      find_location_after_distance gdist route target = (route.getLastD (0, 0), [])) ∧
    (∀ route i, i + 1 < route.length →
      (∀ j, j < i →
        ((segList gdist route).take j).sum + (segList gdist route).getD j 0 < target) →
      target ≤ ((segList gdist route).take i).sum + (segList gdist route).getD i 0 →
      find_location_after_distance gdist route target =
        (((route.getD i (0, 0)).1
            + bracketFrac gdist target route 0 i
              * ((route.getD (i + 1) (0, 0)).1 - (route.getD i (0, 0)).1),
          (route.getD i (0, 0)).2
            + bracketFrac gdist target route 0 i
              * ((route.getD (i + 1) (0, 0)).2 - (route.getD i (0, 0)).2)),
         route.drop (i + 1))) := by
  refine ⟨rfl, fun p => rfl, ?_, ?_⟩
  · intro route hlen hnn hsum
    obtain ⟨p, q, rest, rfl⟩ : ∃ p q rest, route = p :: q :: rest := by
      match route, hlen with
      | p :: q :: rest, _ => exact ⟨p, q, rest, rfl⟩
    have hnone := walkRoute_eq_none gdist target hnn (p :: q :: rest) 0 (by linarith)
    simp only [find_location_after_distance, hnone]
  · intro route i hlen hj hi
    obtain ⟨p, q, rest, rfl⟩ : ∃ p q rest, route = p :: q :: rest := by
      match route, hlen with
      | p :: q :: rest, _ => exact ⟨p, q, rest, rfl⟩
    · have hw := walkRoute_bracket gdist target i (p :: q :: rest) 0 hlen
        (by intro j hji; have := hj j hji; linarith) (by linarith)
      simp only [find_location_after_distance, hw]

/-- Witness for C8: contract instantiated on a concrete three-point polyline
with the target bracketed inside the second segment. -/
theorem projector_contract_witness :
    find_location_after_distance demoDist
      [((0:ℚ), (0:ℚ)), ((4:ℚ), (0:ℚ)), ((10:ℚ), (0:ℚ))] 5 = ((5, 0), [((10:ℚ), (0:ℚ))]) := by
  have h := (projector_contract demoDist 5).2.2.2
    [((0:ℚ), (0:ℚ)), ((4:ℚ), (0:ℚ)), ((10:ℚ), (0:ℚ))] 1
    (by norm_num)
    (by
      intro j hj
      have hj0 : j = 0 := by omega
      subst hj0
      norm_num [segList, demoDist])
    (by norm_num [segList, demoDist])
  rw [h]
  norm_num [bracketFrac, segList, demoDist]

/- Loop evaluation helpers. -/

lemma runLoop_done (gdist : DistFn) (i : ℕ) (speed : ℚ) (n : ℕ) (s : LegSt)
    (h : ¬ 0 < s.remaining_segment_hours) : runLoop gdist i speed n s = some s := by
  cases n <;> simp [runLoop, h]

lemma runLoop_go (gdist : DistFn) (i : ℕ) (speed : ℚ) (n : ℕ) (s : LegSt) (hn : n ≠ 0)
    (h : 0 < s.remaining_segment_hours) :
    runLoop gdist i speed n s = runLoop gdist i speed (n - 1) (legStep gdist i speed s) := by
  cases n with
  | zero => exact absurd rfl hn
  | succ m => simp [runLoop, h]

lemma legFuel_pos_le (d : ℚ) (h1 : 0 < d) (h2 : d ≤ 11) : legFuel d = 10 := by
  have h : (⌈d / 11⌉₊ : ℕ) = 1 := by
    rw [Nat.ceil_eq_iff (by norm_num)]
    constructor
    · push_cast
      positivity
    · push_cast
      rw [div_le_one (by norm_num)]
      linarith
  rw [legFuel, max_daily_driving_hours, h]

lemma legFuel_zero : legFuel 0 = 5 := by
  have h : (⌈(0:ℚ) / 11⌉₊ : ℕ) = 0 := by norm_num
  rw [legFuel, max_daily_driving_hours, h]

/- One-iteration evaluations on the concrete trace states. -/

lemma stepA1 : legStep g0 0 50 lsA0 = lsA1 := by
  norm_num [legStep, withBreak, doDrive, doFuel, doRest, doRestart, projectStep, find_location_after_distance, walkRoute, bumpHead, g0, List.replicate, cycle_days, max_daily_driving_hours, max_daily_duty_hours, min_rest_period_hours, required_break_after_hours, required_break_duration_hours, max_cycle_hours, fuel_distance_miles, fuel_duration_hours, lsA0, lsA1]
  all_goals simp

lemma stepB1 : legStep g0 0 (600/11) lsB0 = lsB1 := by
  norm_num [legStep, withBreak, doDrive, doFuel, doRest, doRestart, projectStep, find_location_after_distance, walkRoute, bumpHead, g0, List.replicate, cycle_days, max_daily_driving_hours, max_daily_duty_hours, min_rest_period_hours, required_break_after_hours, required_break_duration_hours, max_cycle_hours, fuel_distance_miles, fuel_duration_hours, lsB0, lsB1]
  all_goals simp

lemma stepB2 : legStep g0 1 (600/11) lsB2 = lsB3 := by
  norm_num [legStep, withBreak, doDrive, doFuel, doRest, doRestart, projectStep, find_location_after_distance, walkRoute, bumpHead, g0, List.replicate, cycle_days, max_daily_driving_hours, max_daily_duty_hours, min_rest_period_hours, required_break_after_hours, required_break_duration_hours, max_cycle_hours, fuel_distance_miles, fuel_duration_hours, lsB2, lsB3, lsB1]
  all_goals simp

lemma stepB3 : legStep g0 1 (600/11) lsB3 = lsB4 := by
  norm_num [legStep, withBreak, doDrive, doFuel, doRest, doRestart, projectStep, find_location_after_distance, walkRoute, bumpHead, g0, List.replicate, cycle_days, max_daily_driving_hours, max_daily_duty_hours, min_rest_period_hours, required_break_after_hours, required_break_duration_hours, max_cycle_hours, fuel_distance_miles, fuel_duration_hours, lsB3, lsB4]
  all_goals simp

lemma stepD1 : legStep g0 0 50 lsD0 = lsD1 := by
  norm_num [legStep, withBreak, doDrive, doFuel, doRest, doRestart, projectStep, find_location_after_distance, walkRoute, bumpHead, g0, List.replicate, cycle_days, max_daily_driving_hours, max_daily_duty_hours, min_rest_period_hours, required_break_after_hours, required_break_duration_hours, max_cycle_hours, fuel_distance_miles, fuel_duration_hours, lsD0, lsD1]
  all_goals simp

lemma stepD2 : legStep g0 0 50 lsD1 = lsD2 := by
  norm_num [legStep, withBreak, doDrive, doFuel, doRest, doRestart, projectStep, find_location_after_distance, walkRoute, bumpHead, g0, List.replicate, cycle_days, max_daily_driving_hours, max_daily_duty_hours, min_rest_period_hours, required_break_after_hours, required_break_duration_hours, max_cycle_hours, fuel_distance_miles, fuel_duration_hours, lsD1, lsD2]
  all_goals simp

lemma stepE1 : legStep g0 0 125000 lsE0 = lsE1 := by
  norm_num [legStep, withBreak, doDrive, doFuel, doRest, doRestart, projectStep, find_location_after_distance, walkRoute, bumpHead, g0, List.replicate, cycle_days, max_daily_driving_hours, max_daily_duty_hours, min_rest_period_hours, required_break_after_hours, required_break_duration_hours, max_cycle_hours, fuel_distance_miles, fuel_duration_hours, lsE0, lsE1]
  all_goals simp

lemma stepE2 : legStep g0 1 125000 lsE2 = lsE3 := by
  norm_num [legStep, withBreak, doDrive, doFuel, doRest, doRestart, projectStep, find_location_after_distance, walkRoute, bumpHead, g0, List.replicate, cycle_days, max_daily_driving_hours, max_daily_duty_hours, min_rest_period_hours, required_break_after_hours, required_break_duration_hours, max_cycle_hours, fuel_distance_miles, fuel_duration_hours, lsE2, lsE3, lsE1]
  all_goals simp

lemma stepE3 : legStep g0 1 125000 lsE3 = lsE4 := by
  norm_num [legStep, withBreak, doDrive, doFuel, doRest, doRestart, projectStep, find_location_after_distance, walkRoute, bumpHead, g0, List.replicate, cycle_days, max_daily_driving_hours, max_daily_duty_hours, min_rest_period_hours, required_break_after_hours, required_break_duration_hours, max_cycle_hours, fuel_distance_miles, fuel_duration_hours, lsE3, lsE4]
  all_goals simp

lemma stepE4 : legStep g0 1 125000 lsE4 = lsE5 := by
  norm_num [legStep, withBreak, doDrive, doFuel, doRest, doRestart, projectStep, find_location_after_distance, walkRoute, bumpHead, g0, List.replicate, cycle_days, max_daily_driving_hours, max_daily_duty_hours, min_rest_period_hours, required_break_after_hours, required_break_duration_hours, max_cycle_hours, fuel_distance_miles, fuel_duration_hours, lsE4, lsE5]
  all_goals simp

lemma stepF1 : legStep g0 0 50 lsF0 = lsF1 := by
  norm_num [legStep, withBreak, doDrive, doFuel, doRest, doRestart, projectStep, find_location_after_distance, walkRoute, bumpHead, g0, List.replicate, cycle_days, max_daily_driving_hours, max_daily_duty_hours, min_rest_period_hours, required_break_after_hours, required_break_duration_hours, max_cycle_hours, fuel_distance_miles, fuel_duration_hours, lsF0, lsF1]
  all_goals simp

/- Full while-loop evaluations on the trace states. -/

lemma loopA : runLoop g0 0 50 10 lsA0 = some lsA1 := by
  rw [runLoop_go _ _ _ _ _ (by norm_num) (by norm_num [lsA0]), stepA1]
  exact runLoop_done _ _ _ _ _ (by norm_num [lsA1])

lemma loopB0 : runLoop g0 0 (600/11) 10 lsB0 = some lsB1 := by
  rw [runLoop_go _ _ _ _ _ (by norm_num) (by norm_num [lsB0]), stepB1]
  exact runLoop_done _ _ _ _ _ (by norm_num [lsB1])

lemma loopB1 : runLoop g0 1 (600/11) 10 lsB2 = some lsB4 := by
  rw [runLoop_go _ _ _ _ _ (by norm_num) (by norm_num [lsB2]), stepB2]
  rw [runLoop_go _ _ _ _ _ (by norm_num) (by norm_num [lsB3]), stepB3]
  exact runLoop_done _ _ _ _ _ (by norm_num [lsB4])

lemma loopD : runLoop g0 0 50 10 lsD0 = some lsD2 := by
  rw [runLoop_go _ _ _ _ _ (by norm_num) (by norm_num [lsD0]), stepD1]
  rw [runLoop_go _ _ _ _ _ (by norm_num) (by norm_num [lsD1]), stepD2]
  exact runLoop_done _ _ _ _ _ (by norm_num [lsD2])

lemma loopE0 : runLoop g0 0 125000 10 lsE0 = some lsE1 := by
  rw [runLoop_go _ _ _ _ _ (by norm_num) (by norm_num [lsE0]), stepE1]
  exact runLoop_done _ _ _ _ _ (by norm_num [lsE1])

lemma loopE1 : runLoop g0 1 125000 10 lsE2 = some lsE5 := by
  rw [runLoop_go _ _ _ _ _ (by norm_num) (by norm_num [lsE2]), stepE2]
  rw [runLoop_go _ _ _ _ _ (by norm_num) (by norm_num [lsE3]), stepE3]
  rw [runLoop_go _ _ _ _ _ (by norm_num) (by norm_num [lsE4]), stepE4]
  exact runLoop_done _ _ _ _ _ (by norm_num [lsE5])

lemma loopF : runLoop g0 0 50 10 lsF0 = some lsF1 := by
  rw [runLoop_go _ _ _ _ _ (by norm_num) (by norm_num [lsF0]), stepF1]
  exact runLoop_done _ _ _ _ _ (by norm_num [lsF1])

lemma procA : processLeg g0 0 0 { distance_miles := 100, duration_hours := 2, geometry := [] } (initSim 0) = some lsA1.sim := by
  have h : processLeg g0 0 0 { distance_miles := 100, duration_hours := 2, geometry := [] } (initSim 0)
      = (runLoop g0 0 50 (legFuel 2) lsA0).map (·.sim) := by
    norm_num [processLeg, pickupStep, legA, initSim, lsA0, bumpHead, List.replicate, cycle_days,
      pickup_duration_hours]
  rw [h, legFuel_pos_le 2 (by norm_num) (by norm_num), loopA]
  rfl

lemma procB0 : processLeg g0 0 0 { distance_miles := 600, duration_hours := 11, geometry := [] } (initSim 0) = some lsB1.sim := by
  have h : processLeg g0 0 0 { distance_miles := 600, duration_hours := 11, geometry := [] } (initSim 0)
      = (runLoop g0 0 (600/11) (legFuel 11) lsB0).map (·.sim) := by
    norm_num [processLeg, pickupStep, legB, initSim, lsB0, bumpHead, List.replicate, cycle_days,
      pickup_duration_hours]
  rw [h, legFuel_pos_le 11 (by norm_num) (by norm_num), loopB0]
  rfl

lemma procB1 : processLeg g0 0 1 { distance_miles := 600, duration_hours := 11, geometry := [] } lsB1.sim = some lsB4.sim := by
  have h : processLeg g0 0 1 { distance_miles := 600, duration_hours := 11, geometry := [] } lsB1.sim
      = (runLoop g0 1 (600/11) (legFuel 11) lsB2).map (·.sim) := by
    norm_num [processLeg, pickupStep, legB, lsB1, lsB2, bumpHead]
  rw [h, legFuel_pos_le 11 (by norm_num) (by norm_num), loopB1]
  rfl

lemma procD : processLeg g0 0 0 { distance_miles := 100, duration_hours := 2, geometry := [] } (initSim 70) = some lsD2.sim := by
  have h : processLeg g0 0 0 { distance_miles := 100, duration_hours := 2, geometry := [] } (initSim 70)
      = (runLoop g0 0 50 (legFuel 2) lsD0).map (·.sim) := by
    norm_num [processLeg, pickupStep, legA, initSim, lsD0, bumpHead, List.replicate, cycle_days,
      pickup_duration_hours]
  rw [h, legFuel_pos_le 2 (by norm_num) (by norm_num), loopD]
  rfl

lemma procE0 : processLeg g0 0 0 { distance_miles := 1000000, duration_hours := 8, geometry := [] } (initSim 0) = some lsE1.sim := by
  have h : processLeg g0 0 0 { distance_miles := 1000000, duration_hours := 8, geometry := [] } (initSim 0)
      = (runLoop g0 0 125000 (legFuel 8) lsE0).map (·.sim) := by
    norm_num [processLeg, pickupStep, legE0, initSim, lsE0, bumpHead, List.replicate, cycle_days,
      pickup_duration_hours]
  rw [h, legFuel_pos_le 8 (by norm_num) (by norm_num), loopE0]
  rfl

lemma procE1 : processLeg g0 0 1 { distance_miles := 750000, duration_hours := 6, geometry := [] } lsE1.sim = some lsE5.sim := by
  have h : processLeg g0 0 1 { distance_miles := 750000, duration_hours := 6, geometry := [] } lsE1.sim
      = (runLoop g0 1 125000 (legFuel 6) lsE2).map (·.sim) := by
    norm_num [processLeg, pickupStep, legE1, lsE1, lsE2, bumpHead]
  rw [h, legFuel_pos_le 6 (by norm_num) (by norm_num), loopE1]
  rfl

lemma procF : processLeg g0 5 0 { distance_miles := 100, duration_hours := 2, geometry := [] } (initSim 0) = some lsF1.sim := by
  have h : processLeg g0 5 0 { distance_miles := 100, duration_hours := 2, geometry := [] } (initSim 0)
      = (runLoop g0 0 50 (legFuel 2) lsF0).map (·.sim) := by
    norm_num [processLeg, pickupStep, legA, initSim, lsF0, bumpHead, List.replicate, cycle_days]
  rw [h, legFuel_pos_le 2 (by norm_num) (by norm_num), loopF]
  rfl

lemma procZ : processLeg g0 0 0 { distance_miles := 100, duration_hours := 0, geometry := [] } (initSim 0) = some lsZ0.sim := by
  have h : processLeg g0 0 0 { distance_miles := 100, duration_hours := 0, geometry := [] } (initSim 0)
      = (runLoop g0 0 55 (legFuel 0) lsZ0).map (·.sim) := by
    norm_num [processLeg, pickupStep, legZ, initSim, lsZ0, lsA0, bumpHead, List.replicate, cycle_days,
      pickup_duration_hours]
  rw [h, legFuel_zero, runLoop_done _ _ _ _ _ (by norm_num [lsZ0])]
  rfl

lemma calcA : calculate_route_schedule g0 [legA] 0 0 = some schedA := by
  norm_num [calculate_route_schedule, runLegs, procA, dropoffEvent, schedA, lsA1, legA,
    dropoff_duration_hours]

lemma calcB : calculate_route_schedule g0 [legB, legB] 0 0 = some schedB := by
  norm_num [calculate_route_schedule, runLegs, procB0, procB1, dropoffEvent, schedB, lsB4,
    legB, dropoff_duration_hours]

lemma calcD : calculate_route_schedule g0 [legA] 70 0 = some schedD := by
  norm_num [calculate_route_schedule, runLegs, procD, dropoffEvent, schedD, lsD2, legA,
    dropoff_duration_hours]

lemma calcE : calculate_route_schedule g0 [legE0, legE1] 0 0 = some schedE := by
  norm_num [calculate_route_schedule, runLegs, procE0, procE1, dropoffEvent, schedE, lsE5,
    legE0, legE1, dropoff_duration_hours]

lemma calcF : calculate_route_schedule g0 [legA] 0 5 = some schedF := by
  norm_num [calculate_route_schedule, runLegs, procF, dropoffEvent, schedF, lsF1, legA,
    dropoff_duration_hours]

lemma calcZ : calculate_route_schedule g0 [legZ] 0 0 = some schedZ := by
  norm_num [calculate_route_schedule, runLegs, procZ, dropoffEvent, schedZ, lsZ0, lsA0,
    legZ, dropoff_duration_hours]

/- ## Claims settled by the concrete traces -/

/-- C1 (code bug): in Scenario B (two 600-mile/11-hour legs, no initial
hours), the REST taken at the start of the second leg is reachable
(`processLeg` on leg 0 yields the recorded state), day 1 has accumulated
12.5 duty-counted hours, yet after the REST iteration the rolling window
`daily_duty_hours` is entirely zero: `deque.append(0.0)` evicts index 0 —
the slot the code itself documents as "today" — so the trailing 8-day total
drops day 1's hours instead of the oldest day's. -/
theorem rest_shift_drops_current_day :
    processLeg g0 0 0 { distance_miles := 600, duration_hours := 11, geometry := [] }
      (initSim 0) = some lsB1.sim ∧
    lsB2 = { sim := lsB1.sim, remaining_segment_hours := 11,
             remaining_coords := [(0, 0), (0, 0)] } ∧
    dutySumOnDay 1 (legStep g0 1 (600/11) lsB2).sim.schedule = 25/2 ∧
    (legStep g0 1 (600/11) lsB2).sim.daily_duty_hours.sum = 0 := by
  refine ⟨procB0, rfl, ?_, ?_⟩ <;> rw [stepB2] <;>
    norm_num [dutySumOnDay, dutyCounted, List.filter_cons, lsB3, lsB1]

/-- C3 (counterexample): Scenario B does not produce the claimed five-event
sequence PICKUP, DRIVING, REST(start 12), DRIVING, DROPOFF(11→12). -/
theorem scenario_b_cex :
    ¬ ((calculate_route_schedule g0 [legB, legB] 0 0).map (List.map sigOf) =
      some [(AType.PICKUP, 0, 1, 0, 1, 1, none),
            (AType.DRIVING, 0, 1, 1, 12, 11, some 600),
            (AType.REST, 1, 1, 12, 0, 10, none),
            (AType.DRIVING, 1, 2, 0, 11, 11, some 600),
            (AType.DROPOFF, 2, 2, 11, 12, 1, none)]) := by
  rw [calcB]
  norm_num [sigOf, schedB]

/-- C3 (amended): Scenario B actually emits PICKUP(day1,0→1),
DRIVING(day1,1→12,600mi), BREAK(day1,12→12.5), REST(day1, starting 12.5),
DRIVING(day2,0→11,600mi), FUEL(day2,11→12), DROPOFF(day2,12→13); total
DRIVING distance is 1200 and the maximum day is 2. -/
theorem scenario_b_actual :
    (calculate_route_schedule g0 [legB, legB] 0 0).map (List.map sigOf) =
      some [(AType.PICKUP, 0, 1, 0, 1, 1, none),
            (AType.DRIVING, 0, 1, 1, 12, 11, some 600),
            (AType.BREAK, 1, 1, 12, 25/2, 1/2, none),
            (AType.REST, 1, 1, 25/2, 0, 10, none),
            (AType.DRIVING, 1, 2, 0, 11, 11, some 600),
            (AType.FUEL, 1, 2, 11, 12, 1, none),
            (AType.DROPOFF, 2, 2, 12, 13, 1, none)] ∧
    (calculate_route_schedule g0 [legB, legB] 0 0).map drivingDistSum = some 1200 ∧
    (calculate_route_schedule g0 [legB, legB] 0 0).map
      (fun s => (s.map (·.day)).foldr max 0) = some 2 := by
  rw [calcB]
  refine ⟨?_, ?_, ?_⟩
  · norm_num [sigOf, schedB]
  · norm_num [drivingDistSum, atypeEq, List.filter_cons, schedB]
  · norm_num [schedB]

/-- C4 (counterexample): in Scenario D the PICKUP event is not emitted at
duty-local hours 70→71; `start_duty_hours` of the first event is 0. -/
theorem scenario_d_cex :
    ¬ ((calculate_route_schedule g0 [legA] 70 0).map (List.map sigOf) =
      some [(AType.PICKUP, 0, 1, 70, 71, 1, none),
            (AType.RESTART, 0, 1, 71, 0, 34, none),
            (AType.DRIVING, 0, 3, 0, 2, 2, some 100),
            (AType.DROPOFF, 1, 3, 2, 3, 1, none)]) := by
  rw [calcD]
  norm_num [sigOf, schedD]

/-- C4 (amended): Scenario D emits PICKUP(day1, duty 0→1; the daily duty
clock starts at 0, the 70 initial hours live only in the cycle window),
RESTART(day1, 34h, restart_type "34-hour") advancing day 1 to day 3,
DRIVING(day3,0→2,100mi), DROPOFF(day3,2→3); total distance 100, max day 3. -/
theorem scenario_d_actual :
    (calculate_route_schedule g0 [legA] 70 0).map (List.map sigOf) =
      some [(AType.PICKUP, 0, 1, 0, 1, 1, none),
            (AType.RESTART, 0, 1, 1, 0, 34, none),
            (AType.DRIVING, 0, 3, 0, 2, 2, some 100),
            (AType.DROPOFF, 1, 3, 2, 3, 1, none)] ∧
    (calculate_route_schedule g0 [legA] 70 0).map (fun s => s.map (·.restart_type)) =
      some [none, some "34-hour", none, none] ∧
    (calculate_route_schedule g0 [legA] 70 0).map drivingDistSum = some 100 ∧
    (calculate_route_schedule g0 [legA] 70 0).map
      (fun s => (s.map (·.day)).foldr max 0) = some 3 := by
  rw [calcD]
  refine ⟨?_, ?_, ?_, ?_⟩
  · norm_num [sigOf, schedD]
  · norm_num [schedD]
  · norm_num [drivingDistSum, atypeEq, List.filter_cons, schedD]
  · norm_num [schedD]

/-- C2 (counterexample): on two well-formed legs (1000000mi/8h then
750000mi/6h, initial hours 0, pickup index 0) day 1's duty-counted total is
14.5 > 14: FUEL stops are appended with no 14-hour cap check. -/
theorem day_duty_cap_cex :
    (calculate_route_schedule g0 [legE0, legE1] 0 0).map (dutySumOnDay 1) =
      some (29/2) ∧ (14:ℚ) < 29/2 := by
  constructor
  · rw [calcE]
    norm_num [dutySumOnDay, dutyCounted, List.filter_cons, schedE]
  · norm_num

/-- C6 (counterexample): with one leg and pickup_leg_index 5 (≥ the number
of legs) no PICKUP event is emitted at all. -/
theorem pickup_index_out_of_range_cex :
    (calculate_route_schedule g0 [legA] 0 5).map (countType .PICKUP) = some 0 ∧
    (0:ℕ) ≠ 1 := by
  constructor
  · rw [calcF]
    norm_num [countType, atypeEq, List.filter_cons, schedF]
  · norm_num

/-- C7 (counterexample): a leg with distance 100 > 0 and duration 0 (allowed
by the claim's well-formedness) yields a schedule with no REST and no
RESTART whose total DRIVING distance is 0, not 100: the conservation error
is 100, far beyond the 1e-6 tolerance. -/
theorem distance_conservation_cex :
    calculate_route_schedule g0 [legZ] 0 0 = some schedZ ∧
    0 < legZ.distance_miles ∧ 0 ≤ legZ.duration_hours ∧
    countType .REST schedZ = 0 ∧ countType .RESTART schedZ = 0 ∧
    drivingDistSum schedZ = 0 ∧
    ([legZ].map Leg.distance_miles).sum = 100 ∧
    ¬ (|([legZ].map Leg.distance_miles).sum - drivingDistSum schedZ| ≤ 1/1000000) := by
  refine ⟨calcZ, ?_, ?_, ?_, ?_, ?_, ?_, ?_⟩ <;>
    norm_num [legZ, countType, drivingDistSum, atypeEq, List.filter_cons, schedZ]

/-- C10: an empty leg list yields an empty schedule (no PICKUP, no DROPOFF,
no error), and `generate_eld_logs` of that empty schedule is an empty list
of daily logs. -/
theorem empty_legs_empty_schedule (gdist : DistFn) (init : ℚ) (idx : ℕ) :
    calculate_route_schedule gdist [] init idx = some [] ∧
    generate_eld_logs [] = [] := by
  constructor
  · rfl
  · simp [generate_eld_logs, List.eraseDups, List.eraseDups.loop]

lemma coreOf_withBreak (i : ℕ) (s : LegSt) :
    coreOf (withBreak i s) = breakC (coreOf s) := by
  unfold withBreak breakC coreOf
  split <;> rfl

lemma legStep_eq (gdist : DistFn) (i : ℕ) (speed : ℚ) (s : LegSt) :
    legStep gdist i speed s =
      (if availC (coreOf (withBreak i s)) ≤ 0 then
        (if cycRemC (coreOf (withBreak i s)) ≤ 0 then doRestart i (withBreak i s)
         else doRest i (withBreak i s))
       else doDrive gdist i speed (totalC (coreOf (withBreak i s)))
              (availC (coreOf (withBreak i s))) (withBreak i s)) := rfl

lemma coreOf_doRestart (i : ℕ) (t : LegSt) :
    coreOf (doRestart i t) = restartC (coreOf t) := rfl

lemma coreOf_doRest (i : ℕ) (t : LegSt) :
    coreOf (doRest i t) = restC (coreOf t) := rfl

lemma coreOf_doDrive (gdist : DistFn) (i : ℕ) (speed total avail : ℚ) (t : LegSt) :
    coreOf (doDrive gdist i speed total avail t) = driveC avail (coreOf t) ∨
    coreOf (doDrive gdist i speed total avail t) = fuelC (driveC avail (coreOf t)) := by
  unfold doDrive
  dsimp only
  split
  · right
    rfl
  · left
    rfl

/-- One loop iteration, seen on the numeric core. -/
lemma legStep_core (gdist : DistFn) (i : ℕ) (speed : ℚ) (s : LegSt) :
    (availC (breakC (coreOf s)) ≤ 0 ∧ cycRemC (breakC (coreOf s)) ≤ 0 ∧
       coreOf (legStep gdist i speed s) = restartC (breakC (coreOf s))) ∨
    (availC (breakC (coreOf s)) ≤ 0 ∧ 0 < cycRemC (breakC (coreOf s)) ∧
       coreOf (legStep gdist i speed s) = restC (breakC (coreOf s))) ∨
    (0 < availC (breakC (coreOf s)) ∧
       (coreOf (legStep gdist i speed s)
          = driveC (availC (breakC (coreOf s))) (breakC (coreOf s)) ∨
        coreOf (legStep gdist i speed s)
          = fuelC (driveC (availC (breakC (coreOf s))) (breakC (coreOf s))))) := by
  rw [legStep_eq, ← coreOf_withBreak i s]
  by_cases h1 : availC (coreOf (withBreak i s)) ≤ 0
  · by_cases h2 : cycRemC (coreOf (withBreak i s)) ≤ 0
    · rw [if_pos h1, if_pos h2]
      exact Or.inl ⟨h1, h2, coreOf_doRestart _ _⟩
    · rw [if_pos h1, if_neg h2]
      exact Or.inr (Or.inl ⟨h1, not_le.mp h2, coreOf_doRest _ _⟩)
  · rw [if_neg h1]
    exact Or.inr (Or.inr ⟨not_le.mp h1, coreOf_doDrive _ _ _ _ _ _⟩)

lemma bumpHead_sum (w : List ℚ) (x : ℚ) (hw : w ≠ []) :
    (bumpHead w x).sum = w.sum + x := by
  cases w with
  | nil => exact absurd rfl hw
  | cons h t => simp [bumpHead]; ring

lemma bumpHead_sum_le (w : List ℚ) (x : ℚ) (hx : 0 ≤ x) :
    w.sum ≤ (bumpHead w x).sum := by
  cases w with
  | nil => simp [bumpHead]
  | cons h t =>
    simp only [bumpHead, List.sum_cons]
    linarith

lemma bumpHead_ne (w : List ℚ) (x : ℚ) (hw : w ≠ []) : bumpHead w x ≠ [] := by
  cases w with
  | nil => exact absurd rfl hw
  | cons h t => simp [bumpHead]

lemma breakC_rem (c : Core) : (breakC c).rem = c.rem := by
  unfold breakC
  split <;> rfl

lemma breakC_dd (c : Core) : (breakC c).dd = c.dd := by
  unfold breakC
  split <;> rfl

lemma breakC_duty_ge (c : Core) : c.duty ≤ (breakC c).duty := by
  unfold breakC
  split
  · simp only
    norm_num [required_break_duration_hours]
  · exact le_refl _

lemma breakC_total_ge (c : Core) : totalC c ≤ totalC (breakC c) := by
  unfold breakC totalC
  split
  · exact bumpHead_sum_le _ _ (by norm_num [required_break_duration_hours])
  · exact le_refl _

lemma breakC_window_ne (c : Core) (hw : c.window ≠ []) : (breakC c).window ≠ [] := by
  unfold breakC
  split
  · exact bumpHead_ne _ _ hw
  · exact hw

lemma fuelC_rem (c : Core) : (fuelC c).rem = c.rem := rfl

lemma fuelC_dd (c : Core) : (fuelC c).dd = c.dd := rfl

lemma fuelC_duty_ge (c : Core) : c.duty ≤ (fuelC c).duty := by
  unfold fuelC
  simp only
  norm_num [fuel_duration_hours]

lemma fuelC_total_ge (c : Core) : totalC c ≤ totalC (fuelC c) := by
  unfold fuelC totalC
  exact bumpHead_sum_le _ _ (by norm_num [fuel_duration_hours])

lemma fuelC_window_ne (c : Core) (hw : c.window ≠ []) : (fuelC c).window ≠ [] :=
  bumpHead_ne _ _ hw

lemma driveC_window_ne (a : ℚ) (c : Core) (hw : c.window ≠ []) :
    (driveC a c).window ≠ [] := bumpHead_ne _ _ hw

lemma restC_window_ne (c : Core) : (restC c).window ≠ [] := by
  unfold restC
  simp

lemma restartC_window_ne (c : Core) : (restartC c).window ≠ [] := by
  unfold restartC cycle_days
  simp

lemma phaseC_le_four (c : Core) : phaseC c ≤ 4 := by
  unfold phaseC
  dsimp only
  split
  · split
    · norm_num
    · split <;> norm_num
  · split <;> norm_num

lemma phaseC_of_nonpos (c : Core) (h : availC (breakC c) ≤ 0) : phaseC c ≤ 3 := by
  unfold phaseC
  dsimp only
  rw [if_neg (not_lt.mpr h)]
  split <;> norm_num

lemma phaseC_restart (c : Core) (h1 : availC (breakC c) ≤ 0)
    (h2 : cycRemC (breakC c) ≤ 0) : phaseC c = 1 := by
  unfold phaseC
  dsimp only
  rw [if_neg (not_lt.mpr h1), if_pos h2]

lemma phaseC_rest (c : Core) (h1 : availC (breakC c) ≤ 0)
    (h2 : ¬ cycRemC (breakC c) ≤ 0) : phaseC c = 3 := by
  unfold phaseC
  dsimp only
  rw [if_neg (not_lt.mpr h1), if_neg h2]

lemma phaseC_big (c : Core) (h1 : 0 < availC (breakC c))
    (h2 : min max_daily_driving_hours (breakC c).rem ≤ availC (breakC c)) :
    phaseC c = 0 := by
  unfold phaseC
  dsimp only
  rw [if_pos h1, if_pos h2]

lemma phaseC_tight (c : Core) (h1 : 0 < availC (breakC c))
    (h2 : ¬ min max_daily_driving_hours (breakC c).rem ≤ availC (breakC c))
    (h3 : max_cycle_hours ≤ totalC (breakC c) + availC (breakC c)) :
    phaseC c = 2 := by
  unfold phaseC
  dsimp only
  rw [if_pos h1, if_neg h2, if_pos h3]

lemma phaseC_small (c : Core) (h1 : 0 < availC (breakC c))
    (h2 : ¬ min max_daily_driving_hours (breakC c).rem ≤ availC (breakC c))
    (h3 : ¬ max_cycle_hours ≤ totalC (breakC c) + availC (breakC c)) :
    phaseC c = 4 := by
  unfold phaseC
  dsimp only
  rw [if_pos h1, if_neg h2, if_neg h3]

lemma availC_le_rem (c : Core) : availC c ≤ c.rem :=
  le_trans (min_le_right _ _) (min_le_right _ _)

lemma availC_le_dd (c : Core) : availC c ≤ max_daily_driving_hours - c.dd :=
  le_trans (min_le_left _ _) (min_le_left _ _)

lemma availC_le_duty (c : Core) : availC c ≤ max_daily_duty_hours - c.duty :=
  le_trans (min_le_left _ _) (min_le_right _ _)

lemma availC_le_cyc (c : Core) : availC c ≤ cycRemC c :=
  le_trans (min_le_right _ _) (min_le_left _ _)

lemma cycRemC_eq (c : Core) (h : 0 < cycRemC c) :
    cycRemC c = max_cycle_hours - totalC c := by
  unfold cycRemC at h ⊢
  rcases lt_max_iff.mp h with h0 | hx
  · exact absurd h0 (lt_irrefl 0)
  · exact max_eq_right (le_of_lt hx)

lemma breakC_eq_self (c : Core) (h : ¬ required_break_after_hours ≤ c.hsb) :
    breakC c = c := by
  unfold breakC
  rw [if_neg h]

lemma ceil_div_mono {a b : ℚ} (h : a ≤ b) : ⌈a / 11⌉₊ ≤ ⌈b / 11⌉₊ :=
  Nat.ceil_mono (by
    apply div_le_div_of_nonneg_right h
    norm_num)

lemma ceil_div_drop {R r : ℚ} (hR : 11 < R) (h : r ≤ R - 11) :
    ⌈r / 11⌉₊ + 1 ≤ ⌈R / 11⌉₊ := by
  have hpos : (0:ℚ) < R / 11 := by positivity
  have hn : 1 ≤ ⌈R / 11⌉₊ := Nat.ceil_pos.mpr hpos
  have hcast : ((⌈R / 11⌉₊ - 1 : ℕ) : ℚ) = (⌈R / 11⌉₊ : ℚ) - 1 := by
    push_cast [Nat.cast_sub hn]
    ring
  have hstep : r / 11 ≤ ((⌈R / 11⌉₊ - 1 : ℕ) : ℚ) := by
    rw [hcast]
    have h3 : R / 11 ≤ (⌈R / 11⌉₊ : ℚ) := Nat.le_ceil _
    have h4 : r / 11 ≤ R / 11 - 1 := by
      have h5 : r / 11 ≤ (R - 11) / 11 := by
        apply div_le_div_of_nonneg_right h
        norm_num
      have h6 : (R - 11) / 11 = R / 11 - 1 := by
        rw [sub_div]
        norm_num
      linarith
    linarith
  have := Nat.ceil_le.mpr hstep
  omega

lemma availC_after_reset (c : Core) (hT : totalC c = 0) (hdd : c.dd = 0)
    (hduty : c.duty = 0) : availC c = min max_daily_driving_hours c.rem := by
  unfold availC cycRemC
  rw [hT, hdd, hduty, sub_zero, sub_zero, sub_zero]
  rw [min_eq_left
    (by norm_num [max_daily_driving_hours, max_daily_duty_hours] :
      max_daily_driving_hours ≤ max_daily_duty_hours)]
  rw [max_eq_right (by norm_num [max_cycle_hours] : (0:ℚ) ≤ max_cycle_hours)]
  rw [← min_assoc, min_eq_left
    (by norm_num [max_daily_driving_hours, max_cycle_hours] :
      max_daily_driving_hours ≤ max_cycle_hours)]

lemma measure_restart (c : Core) (hr : 0 < c.rem) (h1 : availC (breakC c) ≤ 0)
    (h2 : cycRemC (breakC c) ≤ 0) :
    measureC (restartC (breakC c)) < measureC c := by
  have hrem : (restartC (breakC c)).rem = c.rem := by
    show (breakC c).rem = c.rem
    exact breakC_rem c
  have hbeq : breakC (restartC (breakC c)) = restartC (breakC c) :=
    breakC_eq_self _ (by norm_num [restartC, required_break_after_hours])
  have hT : totalC (restartC (breakC c)) = 0 := by
    simp [restartC, totalC, cycle_days]
  have havail : availC (restartC (breakC c))
      = min max_daily_driving_hours (restartC (breakC c)).rem :=
    availC_after_reset _ hT rfl rfl
  have hpos : 0 < availC (restartC (breakC c)) := by
    rw [havail, hrem]
    exact lt_min (by norm_num [max_daily_driving_hours]) hr
  have hphase : phaseC (restartC (breakC c)) = 0 := by
    apply phaseC_big
    · rw [hbeq]
      exact hpos
    · rw [hbeq, havail]
  have hc1 : phaseC c = 1 := phaseC_restart c h1 h2
  unfold measureC
  rw [hphase, hrem, hc1]
  omega

lemma measure_rest (c : Core) (hr : 0 < c.rem) (h1 : availC (breakC c) ≤ 0)
    (h2 : 0 < cycRemC (breakC c)) :
    measureC (restC (breakC c)) < measureC c := by
  have hrem : (restC (breakC c)).rem = c.rem := by
    show (breakC c).rem = c.rem
    exact breakC_rem c
  have hbeq : breakC (restC (breakC c)) = restC (breakC c) :=
    breakC_eq_self _ (by norm_num [restC, required_break_after_hours])
  have hc3 : phaseC c = 3 := phaseC_rest c h1 (not_le.mpr h2)
  have hphase : phaseC (restC (breakC c)) ≤ 2 := by
    by_cases hC2 : cycRemC (restC (breakC c)) ≤ 0
    · have havail : availC (restC (breakC c)) ≤ 0 := le_trans (availC_le_cyc _) hC2
      have := phaseC_restart (restC (breakC c)) (hbeq ▸ havail) (hbeq ▸ hC2)
      omega
    · have hC2' : 0 < cycRemC (restC (breakC c)) := not_le.mp hC2
      have hform : availC (restC (breakC c))
          = min max_daily_driving_hours
              (min (cycRemC (restC (breakC c))) (restC (breakC c)).rem) := by
        show min (min (max_daily_driving_hours - 0) (max_daily_duty_hours - 0)) _ = _
        rw [sub_zero, sub_zero, min_eq_left
          (by norm_num [max_daily_driving_hours, max_daily_duty_hours] :
            max_daily_driving_hours ≤ max_daily_duty_hours)]
      by_cases hmin : min max_daily_driving_hours (restC (breakC c)).rem
          ≤ availC (restC (breakC c))
      · have hpos : 0 < availC (restC (breakC c)) := by
          rw [hform]
          refine lt_min (by norm_num [max_daily_driving_hours]) (lt_min hC2' ?_)
          rw [hrem]
          exact hr
        have := phaseC_big (restC (breakC c)) (hbeq ▸ hpos) (hbeq ▸ hmin)
        omega
      · -- the cycle term is the strict minimum: the next drive is exactly the
        -- remaining cycle hours and saturates the 70-hour total
        have hclt : cycRemC (restC (breakC c))
            < min max_daily_driving_hours (restC (breakC c)).rem := by
          by_contra hge
          push_neg at hge
          apply hmin
          rw [hform]
          exact le_min (min_le_left _ _) (le_min hge (min_le_right _ _))
        have hceq : availC (restC (breakC c)) = cycRemC (restC (breakC c)) := by
          rw [hform]
          rw [min_eq_left (le_of_lt (lt_of_lt_of_le hclt (min_le_right _ _)))]
          exact min_eq_right
            (le_of_lt (lt_of_lt_of_le hclt (min_le_left _ _)))
        have hpos : 0 < availC (restC (breakC c)) := hceq ▸ hC2'
        have h70 : max_cycle_hours
            ≤ totalC (restC (breakC c)) + availC (restC (breakC c)) := by
          rw [hceq, cycRemC_eq _ hC2']
          linarith
        have hmin2 : ¬ min max_daily_driving_hours (restC (breakC c)).rem
            ≤ availC (restC (breakC c)) := hmin
        have := phaseC_tight (restC (breakC c)) (hbeq ▸ hpos)
          (by rw [hbeq]; exact hmin2) (by rw [hbeq]; exact h70)
        omega
  unfold measureC
  rw [hrem, hc3]
  omega

lemma measure_drive (c c' : Core) (hw : c.window ≠ []) (hr : 0 < c.rem)
    (h1 : 0 < availC (breakC c))
    (hc' : c' = driveC (availC (breakC c)) (breakC c) ∨
           c' = fuelC (driveC (availC (breakC c)) (breakC c))) :
    c'.rem ≤ 0 ∨ measureC c' < measureC c := by
  have hbw : (breakC c).window ≠ [] := breakC_window_ne c hw
  have hbR : (breakC c).rem = c.rem := breakC_rem c
  have hrem' : c'.rem = c.rem - availC (breakC c) := by
    rcases hc' with h | h <;> rw [h] <;>
      show (breakC c).rem - _ = _ <;> rw [hbR]
  have hAleR : availC (breakC c) ≤ c.rem := hbR ▸ availC_le_rem (breakC c)
  by_cases hS0 : min max_daily_driving_hours (breakC c).rem ≤ availC (breakC c)
  · -- a full-size stint
    by_cases hRle : (breakC c).rem ≤ max_daily_driving_hours
    · left
      rw [hrem']
      rw [min_eq_right hRle, hbR] at hS0
      linarith
    · have h11A : max_daily_driving_hours ≤ availC (breakC c) := by
        rw [min_eq_left (le_of_lt (not_le.mp hRle))] at hS0
        exact hS0
      by_cases hrem0 : c'.rem ≤ 0
      · exact Or.inl hrem0
      · right
        have hphase0 : phaseC c = 0 := phaseC_big c h1 hS0
        have hceil : ⌈c'.rem / 11⌉₊ + 1 ≤ ⌈c.rem / 11⌉₊ := by
          apply ceil_div_drop
          · have := not_le.mp hRle
            rw [hbR] at this
            norm_num [max_daily_driving_hours] at this
            exact this
          · rw [hrem']
            norm_num [max_daily_driving_hours] at h11A
            linarith
        have hphase4 : phaseC c' ≤ 4 := phaseC_le_four c'
        simp only [measureC, max_daily_driving_hours]
        rw [hphase0]
        omega
  · -- a short stint: some budget is exhausted afterwards
    have hAltR : availC (breakC c) < c.rem := by
      have := lt_of_lt_of_le (not_le.mp hS0) (min_le_right _ _)
      rw [hbR] at this
      exact this
    right
    have hrem_le : c'.rem ≤ c.rem := by
      rw [hrem']
      linarith
    have hceil : ⌈c'.rem / 11⌉₊ ≤ ⌈c.rem / 11⌉₊ := ceil_div_mono hrem_le
    by_cases hS2 : max_cycle_hours ≤ totalC (breakC c) + availC (breakC c)
    · -- cycle-tight stint: the 70-hour total is saturated afterwards
      have hphase2 : phaseC c = 2 := phaseC_tight c h1 hS0 hS2
      have hTd : totalC (driveC (availC (breakC c)) (breakC c))
          = totalC (breakC c) + availC (breakC c) := by
        unfold driveC totalC
        exact bumpHead_sum _ _ hbw
      have hTc' : totalC (breakC c) + availC (breakC c) ≤ totalC c' := by
        rcases hc' with h | h
        · rw [h, hTd]
        · rw [h]
          exact hTd ▸ fuelC_total_ge _
      have hTb' : max_cycle_hours ≤ totalC (breakC c') :=
        le_trans (le_trans hS2 hTc') (breakC_total_ge c')
      have hcyc0 : cycRemC (breakC c') ≤ 0 := by
        unfold cycRemC
        exact max_le (le_refl 0) (by linarith)
      have havail0 : availC (breakC c') ≤ 0 := le_trans (availC_le_cyc _) hcyc0
      have hphase1 : phaseC c' = 1 := phaseC_restart c' havail0 hcyc0
      simp only [measureC, max_daily_driving_hours]
      rw [hphase1, hphase2]
      omega
    · -- a cap-limited stint: the limiting cap is exhausted afterwards
      have hphase4 : phaseC c = 4 := phaseC_small c h1 hS0 hS2
      have hA : availC (breakC c) = max_daily_driving_hours - (breakC c).dd ∨
                availC (breakC c) = max_daily_duty_hours - (breakC c).duty := by
        rcases min_choice (min (max_daily_driving_hours - (breakC c).dd)
            (max_daily_duty_hours - (breakC c).duty))
            (min (cycRemC (breakC c)) (breakC c).rem) with hX | hY
        · rcases min_choice (max_daily_driving_hours - (breakC c).dd)
              (max_daily_duty_hours - (breakC c).duty) with hx | hx
          · refine Or.inl ?_
            unfold availC
            rw [hX, hx]
          · refine Or.inr ?_
            unfold availC
            rw [hX, hx]
        · rcases min_choice (cycRemC (breakC c)) (breakC c).rem with hy | hy
          · exfalso
            have hAc : availC (breakC c) = cycRemC (breakC c) := by
              unfold availC
              rw [hY, hy]
            have hcycpos : 0 < cycRemC (breakC c) := hAc ▸ h1
            have heq := cycRemC_eq _ hcycpos
            apply hS2
            rw [hAc, heq]
            linarith
          · exfalso
            have hAc : availC (breakC c) = (breakC c).rem := by
              unfold availC
              rw [hY, hy]
            rw [hAc, hbR] at hAltR
            exact lt_irrefl _ hAltR
      have hdd' : c'.dd = (breakC c).dd + availC (breakC c) := by
        rcases hc' with h | h <;> rw [h] <;> rfl
      have hduty' : (breakC c).duty + availC (breakC c) ≤ c'.duty := by
        rcases hc' with h | h <;> rw [h]
        · exact le_refl _
        · exact fuelC_duty_ge _
      have havail0 : availC (breakC c') ≤ 0 := by
        rcases hA with hA | hA
        · have hdd11 : (breakC c').dd = max_daily_driving_hours := by
            rw [breakC_dd, hdd', hA]
            ring
          have hle := availC_le_dd (breakC c')
          rw [hdd11] at hle
          linarith
        · have hge : max_daily_duty_hours ≤ (breakC c').duty := by
            have hduty2 := le_trans hduty' (breakC_duty_ge c')
            rw [hA] at hduty2
            linarith
          have hle := availC_le_duty (breakC c')
          linarith
      have hphase3 : phaseC c' ≤ 3 := phaseC_of_nonpos c' havail0
      simp only [measureC, max_daily_driving_hours]
      rw [hphase4]
      omega

/-- One iteration either ends the loop or strictly decreases the measure. -/
lemma measure_step (gdist : DistFn) (i : ℕ) (speed : ℚ) (s : LegSt)
    (hw : s.sim.daily_duty_hours ≠ []) (hr : 0 < s.remaining_segment_hours) :
    (legStep gdist i speed s).remaining_segment_hours ≤ 0 ∨
    measureC (coreOf (legStep gdist i speed s)) < measureC (coreOf s) := by
  have hw' : (coreOf s).window ≠ [] := hw
  have hr' : 0 < (coreOf s).rem := hr
  rcases legStep_core gdist i speed s with ⟨h1, h2, heq⟩ | ⟨h1, h2, heq⟩ | ⟨h1, heq⟩
  · right
    rw [heq]
    exact measure_restart (coreOf s) hr' h1 h2
  · right
    rw [heq]
    exact measure_rest (coreOf s) hr' h1 h2
  · exact measure_drive (coreOf s) (coreOf (legStep gdist i speed s)) hw' hr' h1 heq

lemma window_step (gdist : DistFn) (i : ℕ) (speed : ℚ) (s : LegSt)
    (hw : s.sim.daily_duty_hours ≠ []) :
    (legStep gdist i speed s).sim.daily_duty_hours ≠ [] := by
  have hw' : (coreOf s).window ≠ [] := hw
  have key : (coreOf (legStep gdist i speed s)).window ≠ [] := by
    rcases legStep_core gdist i speed s with ⟨_, _, heq⟩ | ⟨_, _, heq⟩ | ⟨_, heq | heq⟩
    · rw [heq]
      exact restartC_window_ne _
    · rw [heq]
      exact restC_window_ne _
    · rw [heq]
      exact driveC_window_ne _ _ (breakC_window_ne _ hw')
    · rw [heq]
      exact fuelC_window_ne _ (driveC_window_ne _ _ (breakC_window_ne _ hw'))
  exact key

lemma runLoop_isSome (gdist : DistFn) (i : ℕ) (speed : ℚ) :
    ∀ (n : ℕ) (s : LegSt), s.sim.daily_duty_hours ≠ [] →
      measureC (coreOf s) < n → (runLoop gdist i speed n s).isSome := by
  intro n
  induction n with
  | zero => exact fun s _ hm => absurd hm (Nat.not_lt_zero _)
  | succ m ih =>
    intro s hw hm
    by_cases hr : 0 < s.remaining_segment_hours
    · have hstep : runLoop gdist i speed (m + 1) s
          = runLoop gdist i speed m (legStep gdist i speed s) := by
        simp [runLoop, hr]
      rw [hstep]
      rcases measure_step gdist i speed s hw hr with h0 | hlt
      · rw [runLoop_done _ _ _ _ _ (not_lt.mpr h0)]
        rfl
      · exact ih (legStep gdist i speed s) (window_step gdist i speed s hw) (by omega)
    · rw [runLoop_done _ _ _ _ _ hr]
      rfl

lemma runLoop_window (gdist : DistFn) (i : ℕ) (speed : ℚ) :
    ∀ (n : ℕ) (s s' : LegSt), runLoop gdist i speed n s = some s' →
      s.sim.daily_duty_hours ≠ [] → s'.sim.daily_duty_hours ≠ [] := by
  intro n
  induction n with
  | zero =>
    intro s s' h hw
    simp only [runLoop] at h
    split at h
    · exact absurd h (by simp)
    · obtain rfl : s = s' := by injection h
      exact hw
  | succ m ih =>
    intro s s' h hw
    simp only [runLoop] at h
    split at h
    · exact ih _ _ h (window_step gdist i speed s hw)
    · obtain rfl : s = s' := by injection h
      exact hw

lemma measure_lt_legFuel (s : LegSt) :
    measureC (coreOf s) < legFuel s.remaining_segment_hours := by
  have hφ := phaseC_le_four (coreOf s)
  show 5 * ⌈s.remaining_segment_hours / max_daily_driving_hours⌉₊ + phaseC (coreOf s)
      < 5 * ⌈s.remaining_segment_hours / max_daily_driving_hours⌉₊ + 5
  omega

lemma pickupStep_window (pidx i : ℕ) (sim1 : SimSt)
    (hw : sim1.daily_duty_hours ≠ []) :
    (pickupStep pidx i sim1).daily_duty_hours ≠ [] := by
  unfold pickupStep
  split
  · exact bumpHead_ne _ _ hw
  · exact hw

lemma processLeg_eq (gdist : DistFn) (pidx i : ℕ) (leg : Leg) (sim0 : SimSt) :
    processLeg gdist pidx i leg sim0 =
      (runLoop gdist i
        (if 0 < leg.duration_hours then leg.distance_miles / leg.duration_hours else 55)
        (legFuel leg.duration_hours)
        { sim := pickupStep pidx i { sim0 with current_location :=
            (if leg.geometry.length < 2 then [((0:ℚ), (0:ℚ)), ((0:ℚ), (0:ℚ))]
             else leg.geometry).headI }
          remaining_segment_hours := leg.duration_hours
          remaining_coords := if leg.geometry.length < 2
            then [((0:ℚ), (0:ℚ)), ((0:ℚ), (0:ℚ))] else leg.geometry }).map (·.sim) := rfl

lemma processLeg_isSome (gdist : DistFn) (pidx i : ℕ) (leg : Leg) (sim : SimSt)
    (hw : sim.daily_duty_hours ≠ []) :
    ∃ sim', processLeg gdist pidx i leg sim = some sim' ∧
      sim'.daily_duty_hours ≠ [] := by
  rw [processLeg_eq]
  set s0 : LegSt :=
    { sim := pickupStep pidx i { sim with current_location :=
        (if leg.geometry.length < 2 then [((0:ℚ), (0:ℚ)), ((0:ℚ), (0:ℚ))]
         else leg.geometry).headI }
      remaining_segment_hours := leg.duration_hours
      remaining_coords := if leg.geometry.length < 2
        then [((0:ℚ), (0:ℚ)), ((0:ℚ), (0:ℚ))] else leg.geometry } with hs0
  have hw0 : s0.sim.daily_duty_hours ≠ [] := pickupStep_window _ _ _ hw
  have hm : measureC (coreOf s0) < legFuel leg.duration_hours := measure_lt_legFuel s0
  obtain ⟨ls', hls⟩ := Option.isSome_iff_exists.mp
    (runLoop_isSome gdist i
      (if 0 < leg.duration_hours then leg.distance_miles / leg.duration_hours else 55)
      (legFuel leg.duration_hours) s0 hw0 hm)
  refine ⟨ls'.sim, ?_, runLoop_window gdist i _ _ _ _ hls hw0⟩
  rw [hls]
  rfl

lemma runLegs_isSome (gdist : DistFn) (pidx : ℕ) :
    ∀ (legs : List Leg) (i : ℕ) (sim : SimSt), sim.daily_duty_hours ≠ [] →
      ∃ sim', runLegs gdist pidx i legs sim = some sim' ∧
        sim'.daily_duty_hours ≠ [] := by
  intro legs
  induction legs with
  | nil => exact fun i sim hw => ⟨sim, rfl, hw⟩
  | cons leg rest ih =>
    intro i sim hw
    obtain ⟨sim1, h1, hw1⟩ := processLeg_isSome gdist pidx i leg sim hw
    obtain ⟨sim2, h2, hw2⟩ := ih (i + 1) sim1 hw1
    refine ⟨sim2, ?_, hw2⟩
    simp only [runLegs, h1, Option.bind_some]
    exact h2

lemma initSim_window (init : ℚ) : (initSim init).daily_duty_hours ≠ [] := by
  simp [initSim]

lemma calculate_isSome (gdist : DistFn) (legs : List Leg) (init : ℚ) (idx : ℕ) :
    (calculate_route_schedule gdist legs init idx).isSome := by
  obtain ⟨sim', h, _⟩ := runLegs_isSome gdist idx legs 0 (initSim init) (initSim_window init)
  unfold calculate_route_schedule
  rw [h]
  rfl

/-- C9: for every finite, well-formed leg list (distance positive, duration
nonnegative) and every nonnegative initial_hours_used, the simulation of
`calculate_route_schedule` terminates: the while loop always finishes within
the `legFuel` iteration budget because every iteration either strictly
decreases the remaining leg hours or strictly decreases the potential
`5·⌈remaining/11⌉ + phase`, so the run produces a schedule. -/
theorem schedule_terminates (gdist : DistFn) (legs : List Leg) (init : ℚ) (idx : ℕ)
    (hlegs : ∀ leg ∈ legs, 0 < leg.distance_miles ∧ 0 ≤ leg.duration_hours)
    (hinit : 0 ≤ init) :
    (calculate_route_schedule gdist legs init idx).isSome :=
  calculate_isSome gdist legs init idx

/-- Witness for C9 at a concrete well-formed input (Scenario A). -/
theorem schedule_terminates_witness :
    (calculate_route_schedule g0 [legA] 0 0).isSome := by
  have h := schedule_terminates g0 [legA] 0 0
    (by intro leg hleg; simp only [List.mem_singleton] at hleg; subst hleg
        constructor <;> norm_num [legA])
    (by norm_num)
  exact h

lemma max_nonpos {x : ℚ} (h : max 0 x ≤ 0) : x ≤ 0 :=
  le_trans (le_max_right 0 x) h

lemma le_of_le_max {a x : ℚ} (ha : 0 < a) (h : a ≤ max 0 x) : a ≤ x := by
  rcases max_cases 0 x with ⟨heq, _⟩ | ⟨heq, _⟩
  · rw [heq] at h
    linarith
  · rw [heq] at h
    exact h

lemma doDrive_schedule (gdist : DistFn) (i : ℕ) (speed total avail : ℚ) (t : LegSt) :
    ∃ δF, (doDrive gdist i speed total avail t).sim.schedule
        = t.sim.schedule ++ [drivingEventOf gdist i speed total avail t] ++ δF
      ∧ ∀ x ∈ δF, x.activity_type = AType.FUEL := by
  unfold doDrive
  dsimp only
  split
  · exact ⟨_, rfl, fun x hx => by
      simp only [List.mem_singleton] at hx
      rw [hx]⟩
  · exact ⟨[], by simp [drivingEventOf], by simp⟩

/-- C5: at the moment a DRIVING event is appended by a loop iteration, the
8-day rolling duty total computed just before granting the stint (the window
sum after the break check, excluding the stint itself) is < 70; the event's
`cycle_hours_remaining` equals `70 − (total + duration_hours)` and is
nonnegative; and a RESTART event is appended only when that rolling total has
reached or exceeded 70. -/
theorem cycle_rule_at_emission (gdist : DistFn) (i : ℕ) (speed : ℚ) (s : LegSt) :
    ∀ e ∈ (legStep gdist i speed s).sim.schedule.drop s.sim.schedule.length,
      (e.activity_type = .DRIVING →
        (withBreak i s).sim.daily_duty_hours.sum < max_cycle_hours ∧
        e.cycle_hours_remaining = some (max_cycle_hours
          - ((withBreak i s).sim.daily_duty_hours.sum + e.duration_hours)) ∧
        0 ≤ max_cycle_hours
          - ((withBreak i s).sim.daily_duty_hours.sum + e.duration_hours)) ∧
      (e.activity_type = .RESTART →
        max_cycle_hours ≤ (withBreak i s).sim.daily_duty_hours.sum) := by
  intro e he
  have hbsched : ∃ δB, (withBreak i s).sim.schedule = s.sim.schedule ++ δB ∧
      ∀ x ∈ δB, x.activity_type = AType.BREAK := by
    unfold withBreak
    split
    · exact ⟨_, rfl, by intro x hx; simp at hx; rw [hx]⟩
    · exact ⟨[], by simp, by simp⟩
  obtain ⟨δB, hδB, hBtype⟩ := hbsched
  have hT : totalC (coreOf (withBreak i s)) = (withBreak i s).sim.daily_duty_hours.sum := rfl
  rw [legStep_eq] at he
  by_cases h1 : availC (coreOf (withBreak i s)) ≤ 0
  · rw [if_pos h1] at he
    by_cases h2 : cycRemC (coreOf (withBreak i s)) ≤ 0
    · rw [if_pos h2] at he
      have hsched : (doRestart i (withBreak i s)).sim.schedule
          = s.sim.schedule ++ (δB ++ [{
              activity_type := .RESTART
              location_index := i
              duration_hours := 34
              day := (withBreak i s).sim.current_day
              start_duty_hours := (withBreak i s).sim.current_day_duty
              end_duty_hours := 0
              coord := (withBreak i s).sim.current_location
              restart_type := some "34-hour" }]) := by
        show (withBreak i s).sim.schedule ++ _ = _
        rw [hδB, List.append_assoc]
      rw [hsched, List.drop_left'] at he
      · rcases List.mem_append.mp he with hmem | hmem
        · have := hBtype e hmem
          constructor <;> intro hty <;> rw [this] at hty <;> exact absurd hty (by simp)
        · simp only [List.mem_singleton] at hmem
          subst hmem
          refine ⟨fun hty => absurd hty (by simp), fun _ => ?_⟩
          rw [← hT]
          unfold cycRemC at h2
          have := max_nonpos h2
          linarith
      · rfl
    · rw [if_neg h2] at he
      have hsched : (doRest i (withBreak i s)).sim.schedule
          = s.sim.schedule ++ (δB ++ [{
              activity_type := .REST
              location_index := i
              duration_hours := min_rest_period_hours
              day := (withBreak i s).sim.current_day
              start_duty_hours := (withBreak i s).sim.current_day_duty
              end_duty_hours := 0
              coord := (withBreak i s).sim.current_location }]) := by
        show (withBreak i s).sim.schedule ++ _ = _
        rw [hδB, List.append_assoc]
      rw [hsched, List.drop_left'] at he
      · rcases List.mem_append.mp he with hmem | hmem
        · have := hBtype e hmem
          constructor <;> intro hty <;> rw [this] at hty <;> exact absurd hty (by simp)
        · simp only [List.mem_singleton] at hmem
          subst hmem
          exact ⟨fun hty => absurd hty (by simp), fun hty => absurd hty (by simp)⟩
      · rfl
  · rw [if_neg h1] at he
    have hpos : 0 < availC (coreOf (withBreak i s)) := not_le.mp h1
    have hcycpos : 0 < cycRemC (coreOf (withBreak i s)) :=
      lt_of_lt_of_le hpos (availC_le_cyc _)
    have hTlt : (withBreak i s).sim.daily_duty_hours.sum < max_cycle_hours := by
      rw [← hT]
      unfold cycRemC at hcycpos
      rcases lt_max_iff.mp hcycpos with h0 | hx
      · exact absurd h0 (lt_irrefl 0)
      · linarith
    have hA70 : availC (coreOf (withBreak i s))
        ≤ max_cycle_hours - totalC (coreOf (withBreak i s)) :=
      le_of_le_max hpos (availC_le_cyc _)
    obtain ⟨δF, hsched, hFtype⟩ := doDrive_schedule gdist i speed
      (totalC (coreOf (withBreak i s))) (availC (coreOf (withBreak i s))) (withBreak i s)
    rw [hsched, hδB, List.append_assoc, List.append_assoc, List.drop_left'] at he
    · rcases List.mem_append.mp he with hmem | hmem
      · have := hBtype e hmem
        constructor <;> intro hty <;> rw [this] at hty <;> exact absurd hty (by simp)
      · rcases List.mem_append.mp hmem with hmem2 | hmem2
        · simp only [List.mem_singleton] at hmem2
          subst hmem2
          refine ⟨fun _ => ⟨hTlt, rfl, ?_⟩, fun hty => absurd hty (by simp [drivingEventOf])⟩
          show (0:ℚ) ≤ max_cycle_hours - (totalC (coreOf (withBreak i s))
            + availC (coreOf (withBreak i s)))
          linarith
        · have := hFtype e hmem2
          constructor <;> intro hty <;> rw [this] at hty <;> exact absurd hty (by simp)
    · rfl

/-- Witness for C5: the Scenario A driving stint, emitted from the recorded
loop-entry state, instantiates the emission rule. -/
theorem cycle_rule_at_emission_witness :
    (({ activity_type := .DRIVING, location_index := 0, duration_hours := 2, day := 1,
        start_duty_hours := 1, end_duty_hours := 3, coord := (0, 0),
        distance_miles := some 100, cycle_hours_remaining := some 67 } : Event).activity_type
          = .DRIVING →
      (withBreak 0 lsA0).sim.daily_duty_hours.sum < max_cycle_hours ∧
      ({ activity_type := .DRIVING, location_index := 0, duration_hours := 2, day := 1,
         start_duty_hours := 1, end_duty_hours := 3, coord := (0, 0),
         distance_miles := some 100, cycle_hours_remaining := some 67 } : Event).cycle_hours_remaining
        = some (max_cycle_hours - ((withBreak 0 lsA0).sim.daily_duty_hours.sum + 2)) ∧
      0 ≤ max_cycle_hours - ((withBreak 0 lsA0).sim.daily_duty_hours.sum + 2)) ∧
    (({ activity_type := .DRIVING, location_index := 0, duration_hours := 2, day := 1,
        start_duty_hours := 1, end_duty_hours := 3, coord := (0, 0),
        distance_miles := some 100, cycle_hours_remaining := some 67 } : Event).activity_type
          = .RESTART →
      max_cycle_hours ≤ (withBreak 0 lsA0).sim.daily_duty_hours.sum) := by
  have h := cycle_rule_at_emission g0 0 50 lsA0
    { activity_type := .DRIVING, location_index := 0, duration_hours := 2, day := 1,
      start_duty_hours := 1, end_duty_hours := 3, coord := (0, 0),
      distance_miles := some 100, cycle_hours_remaining := some 67 }
    (by rw [stepA1]; norm_num [lsA1, lsA0])
  exact h

/- ## Schedule-shape invariants (C2, C6, C7) -/

lemma atypeEq_iff (a b : AType) : atypeEq a b = true ↔ a = b := by
  cases a <;> cases b <;> simp [atypeEq]

lemma drivingDistSum_append (a b : List Event) :
    drivingDistSum (a ++ b) = drivingDistSum a + drivingDistSum b := by
  unfold drivingDistSum
  rw [List.filter_append, List.map_append, List.sum_append]

lemma drivingDistSum_of_nonDriving (δ : List Event)
    (h : ∀ x ∈ δ, x.activity_type ≠ AType.DRIVING) : drivingDistSum δ = 0 := by
  unfold drivingDistSum
  rw [List.filter_eq_nil.mpr]
  · rfl
  · intro a ha hx
    exact h a ha ((atypeEq_iff _ _).mp hx)

lemma countType_append (a : AType) (l1 l2 : List Event) :
    countType a (l1 ++ l2) = countType a l1 + countType a l2 := by
  unfold countType
  rw [List.filter_append, List.length_append]

lemma countType_of_none (a : AType) (δ : List Event)
    (h : ∀ x ∈ δ, x.activity_type ≠ a) : countType a δ = 0 := by
  unfold countType
  rw [List.filter_eq_nil.mpr]
  · rfl
  · intro x hx hxa
    exact h x hx ((atypeEq_iff _ _).mp hxa)

lemma withBreak_rem (i : ℕ) (s : LegSt) :
    (withBreak i s).remaining_segment_hours = s.remaining_segment_hours := by
  unfold withBreak
  split <;> rfl

lemma withBreak_pickup (i : ℕ) (s : LegSt) :
    (withBreak i s).sim.pickup_done = s.sim.pickup_done := by
  unfold withBreak
  split <;> rfl

lemma doRestart_rem (i : ℕ) (u : LegSt) :
    (doRestart i u).remaining_segment_hours = u.remaining_segment_hours := rfl

lemma doRest_rem (i : ℕ) (u : LegSt) :
    (doRest i u).remaining_segment_hours = u.remaining_segment_hours := rfl

lemma doRestart_pickup (i : ℕ) (u : LegSt) :
    (doRestart i u).sim.pickup_done = u.sim.pickup_done := rfl

lemma doRest_pickup (i : ℕ) (u : LegSt) :
    (doRest i u).sim.pickup_done = u.sim.pickup_done := rfl

lemma doRestart_schedule (i : ℕ) (u : LegSt) :
    ∃ ev, (doRestart i u).sim.schedule = u.sim.schedule ++ [ev]
      ∧ ev.activity_type = AType.RESTART :=
  ⟨_, rfl, rfl⟩

lemma doRest_schedule (i : ℕ) (u : LegSt) :
    ∃ ev, (doRest i u).sim.schedule = u.sim.schedule ++ [ev]
      ∧ ev.activity_type = AType.REST :=
  ⟨_, rfl, rfl⟩

lemma doDrive_rem (gdist : DistFn) (i : ℕ) (speed total avail : ℚ) (t : LegSt) :
    (doDrive gdist i speed total avail t).remaining_segment_hours
      = t.remaining_segment_hours - avail := by
  unfold doDrive
  dsimp only
  split <;> rfl

lemma doDrive_pickup (gdist : DistFn) (i : ℕ) (speed total avail : ℚ) (t : LegSt) :
    (doDrive gdist i speed total avail t).sim.pickup_done = t.sim.pickup_done := by
  unfold doDrive
  dsimp only
  split <;> rfl

/-- One loop iteration: schedule delta, distance conservation, pickup flag
and remaining-hours facts. -/
lemma legStep_delta (gdist : DistFn) (i : ℕ) (speed : ℚ) (s : LegSt) :
    ∃ δ, (legStep gdist i speed s).sim.schedule = s.sim.schedule ++ δ ∧
      (∀ e ∈ δ, stepEventOK e) ∧
      drivingDistSum (legStep gdist i speed s).sim.schedule
          + speed * (legStep gdist i speed s).remaining_segment_hours
        = drivingDistSum s.sim.schedule + speed * s.remaining_segment_hours ∧
      (legStep gdist i speed s).sim.pickup_done = s.sim.pickup_done ∧
      (0 ≤ s.remaining_segment_hours →
        0 ≤ (legStep gdist i speed s).remaining_segment_hours) := by
  have hbsched : ∃ δB, (withBreak i s).sim.schedule = s.sim.schedule ++ δB ∧
      ∀ x ∈ δB, x.activity_type = AType.BREAK := by
    unfold withBreak
    split
    · exact ⟨_, rfl, by intro x hx; simp at hx; rw [hx]⟩
    · exact ⟨[], by simp, by simp⟩
  obtain ⟨δB, hδB, hBtype⟩ := hbsched
  have hBok : ∀ x ∈ δB, stepEventOK x := by
    intro x hx
    have hxt := hBtype x hx
    refine ⟨by rw [hxt]; simp, by rw [hxt]; simp, fun hty => ?_⟩
    rw [hxt] at hty
    exact absurd hty (by simp)
  have hBdds : drivingDistSum δB = 0 :=
    drivingDistSum_of_nonDriving _ (fun x hx => by rw [hBtype x hx]; simp)
  rw [legStep_eq]
  by_cases h1 : availC (coreOf (withBreak i s)) ≤ 0
  · rw [if_pos h1]
    by_cases h2 : cycRemC (coreOf (withBreak i s)) ≤ 0
    · rw [if_pos h2]
      obtain ⟨ev, hev, hevt⟩ := doRestart_schedule i (withBreak i s)
      refine ⟨δB ++ [ev], ?_, ?_, ?_, ?_, ?_⟩
      · rw [hev, hδB, List.append_assoc]
      · intro e he
        rcases List.mem_append.mp he with hm | hm
        · exact hBok e hm
        · simp only [List.mem_singleton] at hm
          subst hm
          exact ⟨by rw [hevt]; simp, by rw [hevt]; simp, fun hty => by
            rw [hevt] at hty; exact absurd hty (by simp)⟩
      · rw [doRestart_rem, withBreak_rem, hev, hδB, List.append_assoc,
          drivingDistSum_append, drivingDistSum_append, hBdds]
        have hone : drivingDistSum [ev] = 0 :=
          drivingDistSum_of_nonDriving _ (fun x hx => by
            simp only [List.mem_singleton] at hx
            rw [hx, hevt]; simp)
        rw [hone]
        ring
      · rw [doRestart_pickup, withBreak_pickup]
      · intro h0
        rw [doRestart_rem, withBreak_rem]
        exact h0
    · rw [if_neg h2]
      obtain ⟨ev, hev, hevt⟩ := doRest_schedule i (withBreak i s)
      refine ⟨δB ++ [ev], ?_, ?_, ?_, ?_, ?_⟩
      · rw [hev, hδB, List.append_assoc]
      · intro e he
        rcases List.mem_append.mp he with hm | hm
        · exact hBok e hm
        · simp only [List.mem_singleton] at hm
          subst hm
          exact ⟨by rw [hevt]; simp, by rw [hevt]; simp, fun hty => by
            rw [hevt] at hty; exact absurd hty (by simp)⟩
      · rw [doRest_rem, withBreak_rem, hev, hδB, List.append_assoc,
          drivingDistSum_append, drivingDistSum_append, hBdds]
        have hone : drivingDistSum [ev] = 0 :=
          drivingDistSum_of_nonDriving _ (fun x hx => by
            simp only [List.mem_singleton] at hx
            rw [hx, hevt]; simp)
        rw [hone]
        ring
      · rw [doRest_pickup, withBreak_pickup]
      · intro h0
        rw [doRest_rem, withBreak_rem]
        exact h0
  · rw [if_neg h1]
    have hpos : 0 < availC (coreOf (withBreak i s)) := not_le.mp h1
    obtain ⟨δF, hsched, hFtype⟩ := doDrive_schedule gdist i speed
      (totalC (coreOf (withBreak i s))) (availC (coreOf (withBreak i s))) (withBreak i s)
    have hA70 : availC (coreOf (withBreak i s))
        ≤ max_cycle_hours - totalC (coreOf (withBreak i s)) :=
      le_of_le_max hpos (availC_le_cyc _)
    have hAduty : availC (coreOf (withBreak i s))
        ≤ max_daily_duty_hours - (withBreak i s).sim.current_day_duty :=
      availC_le_duty (coreOf (withBreak i s))
    have hArem : availC (coreOf (withBreak i s)) ≤ (withBreak i s).remaining_segment_hours :=
      availC_le_rem (coreOf (withBreak i s))
    rw [withBreak_rem] at hArem
    refine ⟨δB ++ [drivingEventOf gdist i speed (totalC (coreOf (withBreak i s)))
        (availC (coreOf (withBreak i s))) (withBreak i s)] ++ δF, ?_, ?_, ?_, ?_, ?_⟩
    · rw [hsched, hδB]
      simp [List.append_assoc]
    · intro e he
      rcases List.mem_append.mp he with hm | hm
      · rcases List.mem_append.mp hm with hm2 | hm2
        · exact hBok e hm2
        · simp only [List.mem_singleton] at hm2
          subst hm2
          refine ⟨by simp [drivingEventOf], by simp [drivingEventOf], fun _ => ⟨?_, ?_⟩⟩
          · show (withBreak i s).sim.current_day_duty
                + availC (coreOf (withBreak i s)) ≤ max_daily_duty_hours
            linarith
          · refine ⟨_, rfl, ?_, hpos⟩
            show (0:ℚ) ≤ max_cycle_hours - (totalC (coreOf (withBreak i s))
              + availC (coreOf (withBreak i s)))
            linarith
      · have hxt := hFtype e hm
        refine ⟨by rw [hxt]; simp, by rw [hxt]; simp, fun hty => ?_⟩
        rw [hxt] at hty
        exact absurd hty (by simp)
    · rw [doDrive_rem, withBreak_rem, hsched, hδB]
      rw [List.append_assoc, List.append_assoc, drivingDistSum_append,
        drivingDistSum_append, drivingDistSum_append, hBdds]
      have hdrv : drivingDistSum [drivingEventOf gdist i speed
          (totalC (coreOf (withBreak i s))) (availC (coreOf (withBreak i s)))
          (withBreak i s)]
          = speed * availC (coreOf (withBreak i s)) := by
        unfold drivingDistSum drivingEventOf
        simp [atypeEq]
      have hF : drivingDistSum δF = 0 :=
        drivingDistSum_of_nonDriving _ (fun x hx => by rw [hFtype x hx]; simp)
      rw [hdrv, hF]
      ring
    · rw [doDrive_pickup, withBreak_pickup]
    · intro h0
      rw [doDrive_rem, withBreak_rem]
      linarith

/-- The whole while loop: schedule delta, distance conservation, pickup flag
preservation, sign preservation, and the exit condition. -/
lemma runLoop_delta (gdist : DistFn) (i : ℕ) (speed : ℚ) :
    ∀ (n : ℕ) (s s' : LegSt), runLoop gdist i speed n s = some s' →
      (∃ δ, s'.sim.schedule = s.sim.schedule ++ δ ∧ ∀ e ∈ δ, stepEventOK e) ∧
      drivingDistSum s'.sim.schedule + speed * s'.remaining_segment_hours
        = drivingDistSum s.sim.schedule + speed * s.remaining_segment_hours ∧
      s'.sim.pickup_done = s.sim.pickup_done ∧
      (0 ≤ s.remaining_segment_hours → 0 ≤ s'.remaining_segment_hours) ∧
      ¬ 0 < s'.remaining_segment_hours := by
  intro n
  induction n with
  | zero =>
    intro s s' h
    unfold runLoop at h
    by_cases hr : 0 < s.remaining_segment_hours
    · rw [if_pos hr] at h
      exact absurd h (by simp)
    · rw [if_neg hr] at h
      obtain rfl : s = s' := by injection h
      exact ⟨⟨[], by simp, by simp⟩, rfl, rfl, fun h0 => h0, hr⟩
  | succ m ih =>
    intro s s' h
    unfold runLoop at h
    by_cases hr : 0 < s.remaining_segment_hours
    · rw [if_pos hr] at h
      obtain ⟨⟨δ2, hs2, hok2⟩, hcons2, hpk2, hsg2, hend⟩ := ih (legStep gdist i speed s) s' h
      obtain ⟨δ1, hs1, hok1, hcons1, hpk1, hsg1⟩ := legStep_delta gdist i speed s
      refine ⟨⟨δ1 ++ δ2, ?_, ?_⟩, ?_, ?_, ?_, hend⟩
      · rw [hs2, hs1, List.append_assoc]
      · intro e he
        rcases List.mem_append.mp he with hm | hm
        · exact hok1 e hm
        · exact hok2 e hm
      · rw [hcons2, hcons1]
      · rw [hpk2, hpk1]
      · exact fun h0 => hsg2 (hsg1 h0)
    · rw [if_neg hr] at h
      obtain rfl : s = s' := by injection h
      exact ⟨⟨[], by simp, by simp⟩, rfl, rfl, fun h0 => h0, hr⟩

lemma pickupStep_delta (pidx i : ℕ) (sim1 : SimSt) :
    ∃ δP, (pickupStep pidx i sim1).schedule = sim1.schedule ++ δP ∧
      (∀ e ∈ δP, e.activity_type = AType.PICKUP ∧ e.location_index = i ∧ i = pidx) ∧
      countType .PICKUP δP = (if i = pidx ∧ sim1.pickup_done = false then 1 else 0) ∧
      drivingDistSum δP = 0 ∧
      (pickupStep pidx i sim1).pickup_done = (sim1.pickup_done || decide (i = pidx)) := by
  unfold pickupStep
  by_cases hc : i = pidx ∧ sim1.pickup_done = false
  · rw [if_pos hc]
    refine ⟨_, rfl, ?_, ?_, ?_, ?_⟩
    · intro e he
      simp only [List.mem_singleton] at he
      subst he
      exact ⟨rfl, rfl, hc.1⟩
    · rw [if_pos hc]
      simp [countType, atypeEq]
    · apply drivingDistSum_of_nonDriving
      intro x hx
      simp only [List.mem_singleton] at hx
      rw [hx]
      simp
    · simp [hc.1, hc.2]
  · rw [if_neg hc]
    refine ⟨[], by simp, by simp, ?_, by simp [drivingDistSum], ?_⟩
    · rw [if_neg hc]
      simp [countType]
    · cases hd : sim1.pickup_done with
      | false =>
        have hne : ¬ i = pidx := fun hip => hc ⟨hip, hd⟩
        simp [hne]
      | true => simp

/-- One segment: schedule delta, per-event invariants, PICKUP count, pickup
flag update, and exact distance accounting (for positive duration). -/
lemma processLeg_delta (gdist : DistFn) (pidx i : ℕ) (leg : Leg) (sim0 sim' : SimSt)
    (h : processLeg gdist pidx i leg sim0 = some sim') :
    ∃ δ, sim'.schedule = sim0.schedule ++ δ ∧
      (∀ e ∈ δ, e.activity_type ≠ AType.DROPOFF ∧
        (e.activity_type = AType.PICKUP → e.location_index = i ∧ i = pidx) ∧
        (e.activity_type = AType.DRIVING → e.end_duty_hours ≤ max_daily_duty_hours ∧
          ∃ cr, e.cycle_hours_remaining = some cr ∧ 0 ≤ cr ∧ 0 < e.duration_hours)) ∧
      countType .PICKUP δ = (if i = pidx ∧ sim0.pickup_done = false then 1 else 0) ∧
      sim'.pickup_done = (sim0.pickup_done || decide (i = pidx)) ∧
      (0 < leg.duration_hours →
        drivingDistSum sim'.schedule = drivingDistSum sim0.schedule + leg.distance_miles) := by
  rw [processLeg_eq] at h
  set sim1 : SimSt := { sim0 with current_location :=
      (if leg.geometry.length < 2 then [((0:ℚ), (0:ℚ)), ((0:ℚ), (0:ℚ))]
       else leg.geometry).headI } with hsim1
  set s0 : LegSt :=
    { sim := pickupStep pidx i sim1
      remaining_segment_hours := leg.duration_hours
      remaining_coords := if leg.geometry.length < 2
        then [((0:ℚ), (0:ℚ)), ((0:ℚ), (0:ℚ))] else leg.geometry } with hs0
  obtain ⟨ls', hrun, hsim⟩ := Option.map_eq_some'.mp h
  obtain ⟨⟨δL, hsL, hokL⟩, hcons, hpk, hsg, hend⟩ :=
    runLoop_delta gdist i
      (if 0 < leg.duration_hours then leg.distance_miles / leg.duration_hours else 55)
      (legFuel leg.duration_hours) s0 ls' hrun
  obtain ⟨δP, hsP, hokP, hcntP, hddsP, hpkP⟩ := pickupStep_delta pidx i sim1
  have hsim1sched : sim1.schedule = sim0.schedule := rfl
  have hsim1pk : sim1.pickup_done = sim0.pickup_done := rfl
  refine ⟨δP ++ δL, ?_, ?_, ?_, ?_, ?_⟩
  · rw [← hsim, hsL]
    show (pickupStep pidx i sim1).schedule ++ δL = _
    rw [hsP, hsim1sched, List.append_assoc]
  · intro e he
    rcases List.mem_append.mp he with hm | hm
    · obtain ⟨ht, hloc, hip⟩ := hokP e hm
      refine ⟨by rw [ht]; simp, fun _ => ⟨hloc, hip⟩, fun hty => ?_⟩
      rw [ht] at hty
      exact absurd hty (by simp)
    · obtain ⟨hnp, hnd, hdrv⟩ := hokL e hm
      exact ⟨hnd, fun hty => absurd hty hnp, hdrv⟩
  · rw [countType_append, hcntP, hsim1pk,
      countType_of_none _ _ (fun x hx => (hokL x hx).1)]
    simp
  · rw [← hsim, hpk]
    show (pickupStep pidx i sim1).pickup_done = _
    rw [hpkP, hsim1pk]
  · intro hdur
    rw [if_pos hdur] at hcons
    have hrem0 : ls'.remaining_segment_hours = 0 :=
      le_antisymm (not_lt.mp hend) (hsg (le_of_lt hdur))
    have hs0sched : drivingDistSum s0.sim.schedule = drivingDistSum sim0.schedule := by
      show drivingDistSum (pickupStep pidx i sim1).schedule = _
      rw [hsP, hsim1sched, drivingDistSum_append, hddsP]
      ring
    have hs0rem : s0.remaining_segment_hours = leg.duration_hours := rfl
    rw [← hsim]
    rw [hrem0, hs0sched, hs0rem] at hcons
    have hne : leg.duration_hours ≠ 0 := ne_of_gt hdur
    have : leg.distance_miles / leg.duration_hours * leg.duration_hours
        = leg.distance_miles := div_mul_cancel₀ _ hne
    show drivingDistSum ls'.sim.schedule = _
    linarith [hcons]

/-- The whole fold over segments: schedule delta, per-event invariants, PICKUP
count, pickup flag, and distance accounting. -/
lemma runLegs_delta (gdist : DistFn) (pidx : ℕ) :
    ∀ (legs : List Leg) (i : ℕ) (sim sim' : SimSt),
      runLegs gdist pidx i legs sim = some sim' →
      ∃ δ, sim'.schedule = sim.schedule ++ δ ∧
        (∀ e ∈ δ, e.activity_type ≠ AType.DROPOFF ∧
          (e.activity_type = AType.PICKUP → e.location_index = pidx) ∧
          (e.activity_type = AType.DRIVING → e.end_duty_hours ≤ max_daily_duty_hours ∧
            ∃ cr, e.cycle_hours_remaining = some cr ∧ 0 ≤ cr ∧ 0 < e.duration_hours)) ∧
        countType .PICKUP δ
          = (if sim.pickup_done = false ∧ i ≤ pidx ∧ pidx < i + legs.length
             then 1 else 0) ∧
        sim'.pickup_done
          = (sim.pickup_done || decide (i ≤ pidx ∧ pidx < i + legs.length)) ∧
        ((∀ leg ∈ legs, 0 < leg.duration_hours) →
          drivingDistSum sim'.schedule
            = drivingDistSum sim.schedule + (legs.map (·.distance_miles)).sum) := by
  intro legs
  induction legs with
  | nil =>
    intro i sim sim' h
    obtain rfl : sim = sim' := by
      simp only [runLegs] at h
      injection h
    have hnc : ¬ (i ≤ pidx ∧ pidx < i + ([] : List Leg).length) := by
      simp only [List.length_nil]
      omega
    refine ⟨[], by simp, by simp, ?_, ?_, by simp⟩
    · rw [if_neg]
      · simp [countType]
      · rintro ⟨_, hc⟩
        exact hnc hc
    · simp [hnc]
  | cons leg rest ih =>
    intro i sim sim' h
    simp only [runLegs] at h
    rcases Option.bind_eq_some.mp h with ⟨sim1, h1, h2⟩
    obtain ⟨δ1, hs1, hok1, hcnt1, hpk1, hdds1⟩ := processLeg_delta gdist pidx i leg sim sim1 h1
    obtain ⟨δ2, hs2, hok2, hcnt2, hpk2, hdds2⟩ := ih (i + 1) sim1 sim' h2
    refine ⟨δ1 ++ δ2, ?_, ?_, ?_, ?_, ?_⟩
    · rw [hs2, hs1, List.append_assoc]
    · intro e he
      rcases List.mem_append.mp he with hm | hm
      · obtain ⟨hnd, hp, hdrv⟩ := hok1 e hm
        exact ⟨hnd, fun hty => ((hp hty).2 ▸ (hp hty).1), hdrv⟩
      · exact hok2 e hm
    · rw [countType_append, hcnt1, hcnt2]
      cases hd : sim.pickup_done with
      | true =>
        have hpk1' : sim1.pickup_done = true := by
          rw [hpk1]
          simp [hd]
        rw [if_neg (by rintro ⟨_, hf⟩; exact absurd hf (by simp)),
          if_neg (by rintro ⟨hf, _⟩; rw [hpk1'] at hf; exact absurd hf (by simp)),
          if_neg (by rintro ⟨hf, _⟩; exact absurd hf (by simp))]
      | false =>
        by_cases hip : i = pidx
        · have hpk1' : sim1.pickup_done = true := by
            rw [hpk1, hip]
            simp
          rw [if_pos ⟨hip, rfl⟩,
            if_neg (by rintro ⟨hf, _⟩; rw [hpk1'] at hf; exact absurd hf (by simp)),
            if_pos ⟨rfl, by omega, by simp only [List.length_cons]; omega⟩]
        · have hpk1' : sim1.pickup_done = false := by
            rw [hpk1]
            simp [hip, hd]
          rw [if_neg (by rintro ⟨hf, _⟩; exact hip hf), hpk1']
          by_cases hr : i + 1 ≤ pidx ∧ pidx < i + 1 + rest.length
          · rw [if_pos ⟨rfl, hr⟩,
              if_pos ⟨rfl, by omega, by simp only [List.length_cons]; omega⟩]
          · rw [if_neg (by rintro ⟨_, hf⟩; exact hr hf), if_neg]
            rintro ⟨_, hle, hlt⟩
            apply hr
            simp only [List.length_cons] at hlt
            omega
    · rw [hpk2, hpk1, Bool.or_assoc]
      congr 1
      rw [← Bool.decide_or, decide_eq_decide]
      simp only [List.length_cons]
      constructor
      · rintro (rfl | ⟨hle, hlt⟩) <;> omega
      · rintro ⟨hle, hlt⟩
        by_cases hip : i = pidx
        · exact Or.inl hip
        · exact Or.inr ⟨by omega, by omega⟩
    · intro hwf
      have hdur : 0 < leg.duration_hours := hwf leg (by simp)
      have hrest : ∀ l ∈ rest, 0 < l.duration_hours := fun l hl => hwf l (by simp [hl])
      rw [hdds2 hrest, hdds1 hdur]
      simp only [List.map_cons, List.sum_cons]
      ring

/-- C2 (amended): for every input, every DRIVING event in the schedule ends at
`end_duty_hours ≤ 14` — the daily duty cap is part of the available-hours
minimum, so no granted driving stint pushes past it (non-driving duty events
carry no such guarantee). -/
theorem driving_respects_duty_cap (gdist : DistFn) (legs : List Leg) (init : ℚ)
    (idx : ℕ) (sched : List Event)
    (h : calculate_route_schedule gdist legs init idx = some sched) :
    ∀ e ∈ sched, e.activity_type = AType.DRIVING →
      e.end_duty_hours ≤ max_daily_duty_hours := by
  unfold calculate_route_schedule at h
  rcases Option.map_eq_some'.mp h with ⟨sim', hrun, hsched⟩
  obtain ⟨δ, hδ, hok, _, _, _⟩ := runLegs_delta gdist idx legs 0 (initSim init) sim' hrun
  have hδ' : sim'.schedule = δ := by
    rw [hδ]
    rfl
  intro e he hty
  rw [← hsched] at he
  by_cases hemp : legs.isEmpty
  · rw [if_pos hemp, hδ'] at he
    exact ((hok e he).2.2 hty).1
  · rw [if_neg hemp] at he
    rcases List.mem_append.mp he with hm | hm
    · rw [hδ'] at hm
      exact ((hok e hm).2.2 hty).1
    · simp only [List.mem_singleton] at hm
      subst hm
      have hdt : (dropoffEvent legs sim').activity_type = AType.DROPOFF := rfl
      rw [hdt] at hty
      exact absurd hty (by simp)

/-- Witness for C2: the Scenario A DRIVING event ends within the 14-hour
daily duty cap. -/
theorem driving_respects_duty_cap_witness :
    ({ activity_type := AType.DRIVING, location_index := 0, duration_hours := 2, day := 1,
       start_duty_hours := 1, end_duty_hours := 3, coord := ((0:ℚ), (0:ℚ)),
       distance_miles := some 100, cycle_hours_remaining := some 67,
       restart_type := none } : Event).end_duty_hours ≤ max_daily_duty_hours := by
  have h := driving_respects_duty_cap g0 [legA] 0 0 schedA calcA
    { activity_type := AType.DRIVING, location_index := 0, duration_hours := 2, day := 1,
      start_duty_hours := 1, end_duty_hours := 3, coord := ((0:ℚ), (0:ℚ)),
      distance_miles := some 100, cycle_hours_remaining := some 67,
      restart_type := none }
    (by rw [schedA]; exact List.mem_cons_of_mem _ (List.mem_cons_self _ _)) rfl
  exact h

/-- C6 (amended): for every non-empty leg list and every pickup index within
range, the schedule has exactly one PICKUP event, located at the configured
leg index, and exactly one DROPOFF event, which is the last event. -/
theorem pickup_dropoff_unique (gdist : DistFn) (legs : List Leg) (init : ℚ)
    (idx : ℕ) (sched : List Event) (hne : legs ≠ []) (hidx : idx < legs.length)
    (h : calculate_route_schedule gdist legs init idx = some sched) :
    countType .PICKUP sched = 1 ∧
    (∀ e ∈ sched, e.activity_type = AType.PICKUP → e.location_index = idx) ∧
    countType .DROPOFF sched = 1 ∧
    ∃ e, sched.getLast? = some e ∧ e.activity_type = AType.DROPOFF := by
  unfold calculate_route_schedule at h
  rcases Option.map_eq_some'.mp h with ⟨sim', hrun, hsched⟩
  obtain ⟨δ, hδ, hok, hcnt, _, _⟩ := runLegs_delta gdist idx legs 0 (initSim init) sim' hrun
  have hδ' : sim'.schedule = δ := by
    rw [hδ]
    rfl
  have hemp : legs.isEmpty = false := by
    cases legs with
    | nil => exact absurd rfl hne
    | cons a l => rfl
  rw [hemp] at hsched
  simp only [Bool.false_eq_true, if_false] at hsched
  have hdt : (dropoffEvent legs sim').activity_type = AType.DROPOFF := rfl
  have hcntδ : countType .PICKUP δ = 1 := by
    rw [hcnt, if_pos]
    exact ⟨rfl, Nat.zero_le _, by simpa using hidx⟩
  refine ⟨?_, ?_, ?_, ?_⟩
  · rw [← hsched, countType_append, hδ', hcntδ,
      countType_of_none _ _ (fun x hx => by
        simp only [List.mem_singleton] at hx
        rw [hx, hdt]
        simp)]
  · intro e he hty
    rw [← hsched] at he
    rcases List.mem_append.mp he with hm | hm
    · rw [hδ'] at hm
      exact (hok e hm).2.1 hty
    · simp only [List.mem_singleton] at hm
      subst hm
      rw [hdt] at hty
      exact absurd hty (by simp)
  · rw [← hsched, countType_append, hδ',
      countType_of_none _ _ (fun x hx => (hok x hx).1)]
    unfold countType
    rw [List.filter_cons]
    simp [(atypeEq_iff _ _).mpr hdt]
  · refine ⟨dropoffEvent legs sim', ?_, hdt⟩
    rw [← hsched]
    exact List.getLast?_concat _

/-- Witness for C6: Scenario A has exactly one PICKUP (at index 0) and one
DROPOFF, last. -/
theorem pickup_dropoff_unique_witness :
    countType .PICKUP schedA = 1 ∧
    (∀ e ∈ schedA, e.activity_type = AType.PICKUP → e.location_index = 0) ∧
    countType .DROPOFF schedA = 1 ∧
    ∃ e, schedA.getLast? = some e ∧ e.activity_type = AType.DROPOFF := by
  have h := pickup_dropoff_unique g0 [legA] 0 0 schedA (by simp)
    (by simp) calcA
  exact h

/-- C7 (amended): for legs with strictly positive distance and duration whose
schedule contains no REST and no RESTART, the total DRIVING distance equals
the total leg distance exactly. -/
theorem distance_conservation (gdist : DistFn) (legs : List Leg) (init : ℚ)
    (idx : ℕ) (sched : List Event)
    (hwf : ∀ leg ∈ legs, 0 < leg.distance_miles ∧ 0 < leg.duration_hours)
    (h : calculate_route_schedule gdist legs init idx = some sched)
    (hnoRest : countType .REST sched = 0)
    (hnoRestart : countType .RESTART sched = 0) :
    drivingDistSum sched = (legs.map (·.distance_miles)).sum := by
  unfold calculate_route_schedule at h
  rcases Option.map_eq_some'.mp h with ⟨sim', hrun, hsched⟩
  obtain ⟨δ, hδ, hok, _, _, hcons⟩ := runLegs_delta gdist idx legs 0 (initSim init) sim' hrun
  have hdds : drivingDistSum sim'.schedule = (legs.map (·.distance_miles)).sum := by
    rw [hcons (fun l hl => (hwf l hl).2)]
    show drivingDistSum [] + _ = _
    rw [drivingDistSum]
    simp
  rw [← hsched]
  by_cases hemp : legs.isEmpty
  · rw [if_pos hemp, hdds]
  · rw [if_neg hemp, drivingDistSum_append, hdds,
      drivingDistSum_of_nonDriving _ (fun x hx => by
        simp only [List.mem_singleton] at hx
        rw [hx]
        show AType.DROPOFF ≠ AType.DRIVING
        simp)]
    ring

/-- Witness for C7: Scenario A (one 100-mile, 2-hour leg, no REST/RESTART)
conserves the 100 miles. -/
theorem distance_conservation_witness :
    drivingDistSum schedA = ([legA].map (·.distance_miles)).sum := by
  have h := distance_conservation g0 [legA] 0 0 schedA
    (by intro l hl
        simp only [List.mem_singleton] at hl
        subst hl
        constructor <;> norm_num [legA])
    calcA
    (by norm_num [countType, schedA, atypeEq, List.filter_cons])
    (by norm_num [countType, schedA, atypeEq, List.filter_cons])
  exact h
